import Mathlib

/-!
# Counter (libconnman-qt, `counter.cpp`)

A shallow embedding of the `Counter` class and its D-Bus adaptor, followed by
the properties of the counter state machine.

Conventions of the embedding:

* a member function `Counter::f(args)` becomes `Counter.f c env args`, returning the
  counter afterwards together with the list of effects it produced, in program order;
* effects are the Qt signals emitted (`Q_EMIT`), the calls made on the network manager
  and the calls made on the system bus;
* what the function reads from its collaborators (`m_manager->isAvailable()`, the result
  of `registerObject`) is passed in as a boolean argument;
* `quint64` / `quint32` values are natural numbers; the conversions out of a variant
  reduce modulo `2^64` / `2^32`.
-/

namespace ConnmanQt

/-! ## Payload of a usage report -/

/-- Modelled from the spec: the variant stored under a key of a counters payload
("a mapping with (at minimum) keys: RX.Bytes (unsigned 64-bit), TX.Bytes (unsigned 64-bit),
Time (unsigned 32-bit seconds); absent/zero entries mean not reported"). The class itself
belongs to Qt. `invalid` is the default-constructed variant read for an absent key. -/
inductive QVariant where
  | invalid
  | uLongLong (v : Nat)
  | uInt (v : Nat)
deriving DecidableEq

namespace QVariant

/-- Modelled from the spec: conversion of a variant to `quint64`; an invalid variant gives 0. -/
def toULongLong : QVariant → Nat
  | invalid => 0
  | uLongLong v => v % 2 ^ 64
  | uInt v => v % 2 ^ 32

/-- Modelled from the spec: conversion of a variant to `quint32`; an invalid variant gives 0,
a 64-bit value is truncated. -/
def toUInt : QVariant → Nat
  | invalid => 0
  | uLongLong v => (v % 2 ^ 64) % 2 ^ 32
  | uInt v => v % 2 ^ 32

end QVariant

/-- Modelled from the spec: the counters payload, a mapping from key to variant
(`QVariantMap` of Qt), kept as an association list read by its first matching entry. -/
abbrev QVariantMap := List (String × QVariant)

/-- Modelled from the spec: `counters[key]` on a constant map: the stored variant, or the
default-constructed (invalid) one when the key is absent. -/
def QVariantMap.value (m : QVariantMap) (key : String) : QVariant :=
  match m.lookup key with
  | some v => v
  | none => QVariant.invalid

/-- Modelled from the spec: `counters.contains(key)`: the mapping has an entry under the
key ("absent/zero entries mean not reported"). -/
def QVariantMap.contains (m : QVariantMap) (key : String) : Bool :=
  m.any (fun e => e.1 == key)

/-! ## Effects -/

/-- What a member function does to the outside, in program order: signals of `Counter`,
calls on the network manager, calls on the system bus. -/
inductive Effect where
  | counterChanged (servicePath : String) (counters : QVariantMap) (roaming : Bool)
  | roamingChanged (roaming : Bool)
  | bytesReceivedChanged (rxbytes : Nat)
  | bytesTransmittedChanged (txbytes : Nat)
  | secondsOnlineChanged (time : Nat)
  | accuracyChanged (accuracy : Nat)
  | intervalChanged (interval : Nat)
  | runningChanged (running : Bool)
  | registerCounter (path : String) (accuracy : Nat) (interval : Nat)
  | unregisterCounter (path : String)
  | unregisterAgent (path : String)
  | newCounterAdaptor
  | registerObject (path : String)
  | qDebug (path : String)
deriving DecidableEq

namespace Effect

/-- The effect is a call on the network manager. -/
def isManagerCall : Effect → Bool
  | registerCounter _ _ _ => true
  | unregisterCounter _ => true
  | unregisterAgent _ => true
  | _ => false

/-- The effect is a `registerCounter` call. -/
def isRegister : Effect → Bool
  | registerCounter _ _ _ => true
  | _ => false

/-- The effect is an `unregisterCounter` call. -/
def isUnregister : Effect → Bool
  | unregisterCounter _ => true
  | _ => false

/-- The effect is a signal emitted by the counter. -/
def isSignal : Effect → Bool
  | counterChanged _ _ _ => true
  | roamingChanged _ => true
  | bytesReceivedChanged _ => true
  | bytesTransmittedChanged _ => true
  | secondsOnlineChanged _ => true
  | accuracyChanged _ => true
  | intervalChanged _ => true
  | runningChanged _ => true
  | _ => false

/-- The effect is the signal `runningChanged`. -/
def isRunningChanged : Effect → Bool
  | runningChanged _ => true
  | _ => false

end Effect

/-- The calls on the network manager among a list of effects, in order. -/
def managerCalls (es : List Effect) : List Effect :=
  es.filter Effect.isManagerCall

/-- The signals among a list of effects, in order. -/
def signals (es : List Effect) : List Effect :=
  es.filter Effect.isSignal

/-! ## The counter -/

/-- The data members of `Counter` (the manager pointer apart). -/
structure Counter where
  counterPath : String
  bytesInHome : Nat
  bytesOutHome : Nat
  secondsOnlineHome : Nat
  bytesInRoaming : Nat
  bytesOutRoaming : Nat
  secondsOnlineRoaming : Nat
  roamingEnabled : Bool
  currentInterval : Nat
  currentAccuracy : Nat
  isRunning : Bool
  shouldBeRunning : Bool
deriving DecidableEq

namespace Counter

/-- `Counter::serviceUsage`. -/
def serviceUsage (c : Counter) (servicePath : String) (counters : QVariantMap)
    (roaming : Bool) : Counter × List Effect :=
  let e0 := [Effect.counterChanged servicePath counters roaming]
  let c1 := if roaming ≠ c.roamingEnabled then { c with roamingEnabled := roaming } else c
  let e1 := if roaming ≠ c.roamingEnabled then [Effect.roamingChanged roaming] else []
  let rxbytes := (counters.value "RX.Bytes").toULongLong
  let txbytes := (counters.value "TX.Bytes").toULongLong
  let time := (counters.value "Time").toUInt
  let c2 :=
    if roaming then
      let a := if rxbytes ≠ 0 then { c1 with bytesInRoaming := rxbytes } else c1
      let b := if txbytes ≠ 0 then { a with bytesOutRoaming := txbytes } else a
      if time ≠ 0 then { b with secondsOnlineRoaming := time } else b
    else
      let a := if rxbytes ≠ 0 then { c1 with bytesInHome := rxbytes } else c1
      let b := if txbytes ≠ 0 then { a with bytesOutHome := txbytes } else a
      if time ≠ 0 then { b with secondsOnlineHome := time } else b
  let e2 := if rxbytes ≠ 0 then [Effect.bytesReceivedChanged rxbytes] else []
  let e3 := if txbytes ≠ 0 then [Effect.bytesTransmittedChanged txbytes] else []
  let e4 := if time ≠ 0 then [Effect.secondsOnlineChanged time] else []
  (c2, e0 ++ e1 ++ e2 ++ e3 ++ e4)

/-- `Counter::release`. -/
def release (c : Counter) : Counter × List Effect :=
  (c, [])

/-- `Counter::roaming`. -/
def roaming (c : Counter) : Bool :=
  c.roamingEnabled

/-- `Counter::bytesReceived`. -/
def bytesReceived (c : Counter) : Nat :=
  if c.roamingEnabled then c.bytesInRoaming else c.bytesInHome

/-- `Counter::bytesTransmitted`. -/
def bytesTransmitted (c : Counter) : Nat :=
  if c.roamingEnabled then c.bytesOutRoaming else c.bytesOutHome

/-- `Counter::secondsOnline`. -/
def secondsOnline (c : Counter) : Nat :=
  if c.roamingEnabled then c.secondsOnlineRoaming else c.secondsOnlineHome

/-- `Counter::reRegister`; `isAvailable` is what `m_manager->isAvailable()` returns. -/
def reRegister (c : Counter) (isAvailable : Bool) : Counter × List Effect :=
  if isAvailable then
    (c, [Effect.unregisterCounter c.counterPath,
         Effect.registerCounter c.counterPath c.currentAccuracy c.currentInterval])
  else
    (c, [])

/-- `Counter::setAccuracy`. -/
def setAccuracy (c : Counter) (isAvailable : Bool) (accuracy : Nat) : Counter × List Effect :=
  let c1 := { c with currentAccuracy := accuracy }
  let r := c1.reRegister isAvailable
  (r.1, r.2 ++ [Effect.accuracyChanged accuracy])

/-- `Counter::accuracy`. -/
def accuracy (c : Counter) : Nat :=
  c.currentAccuracy

/-- `Counter::setInterval`. -/
def setInterval (c : Counter) (isAvailable : Bool) (interval : Nat) : Counter × List Effect :=
  let c1 := { c with currentInterval := interval }
  let r := c1.reRegister isAvailable
  (r.1, r.2 ++ [Effect.intervalChanged interval])

/-- `Counter::interval`. -/
def interval (c : Counter) : Nat :=
  c.currentInterval

/-- `Counter::setRunning`; `isAvailable` is what `m_manager->isAvailable()` returns, and
`on_` is the parameter `on` of the source (a reserved word here). -/
def setRunning (c : Counter) (isAvailable : Bool) (on_ : Bool) : Counter × List Effect :=
  let c1 := { c with shouldBeRunning := on_ }
  if on_ then
    if isAvailable then
      let c2 := { c1 with isRunning := true }
      (c2, [Effect.registerCounter c1.counterPath c1.currentAccuracy c1.currentInterval,
            Effect.runningChanged c2.isRunning])
    else
      (c1, [])
  else
    if isAvailable then
      let c2 := { c1 with isRunning := false }
      (c2, [Effect.unregisterCounter c1.counterPath, Effect.runningChanged c2.isRunning])
    else
      (c1, [])

/-- `Counter::running`. -/
def running (c : Counter) : Bool :=
  c.isRunning

/-- `Counter::updateMgrAvailability`; `registerObjectOk` is the result of
`QDBusConnection::systemBus().registerObject(counterPath, this)` and `isAvailable` is what
`m_manager->isAvailable()` returns inside `setRunning`. -/
def updateMgrAvailability (c : Counter) (registerObjectOk : Bool) (isAvailable : Bool)
    (available : Bool) : Counter × List Effect :=
  if available then
    let e0 := [Effect.newCounterAdaptor, Effect.registerObject c.counterPath]
    if !registerObjectOk then
      (c, e0 ++ [Effect.qDebug c.counterPath])
    else
      let r := c.setRunning isAvailable c.shouldBeRunning
      (r.1, e0 ++ r.2)
  else
    (c, [])

/-- The member initialisers of the constructor and the choice of `counterPath`;
`randomValue` is the result of `qrand()`. -/
def initial (randomValue : Nat) : Counter :=
  { counterPath := "/ConnectivityCounter" ++ toString randomValue
    bytesInHome := 0
    bytesOutHome := 0
    secondsOnlineHome := 0
    bytesInRoaming := 0
    bytesOutRoaming := 0
    secondsOnlineRoaming := 0
    roamingEnabled := false
    currentInterval := 1
    currentAccuracy := 1024
    isRunning := false
    shouldBeRunning := false }

/-- `Counter::Counter`; `serviceRegistered` is the result of
`isServiceRegistered("net.connman")`. The `connect` of `availabilityChanged` to
`updateMgrAvailability` is what `World.dispatch` below carries out. -/
def construct (randomValue : Nat) (serviceRegistered : Bool) (registerObjectOk : Bool)
    (isAvailable : Bool) : Counter × List Effect :=
  let c := initial randomValue
  if serviceRegistered then
    c.updateMgrAvailability registerObjectOk isAvailable true
  else
    (c, [])

/-- `Counter::~Counter`: the call it makes on the manager. -/
def destruct (c : Counter) : List Effect :=
  [Effect.unregisterAgent c.counterPath]

end Counter

/-! ## The D-Bus adaptor -/

namespace CounterAdaptor

/-- `CounterAdaptor::Release`. -/
def Release (m_counter : Counter) : Counter × List Effect :=
  m_counter.release

/-- `CounterAdaptor::Usage`. -/
def Usage (m_counter : Counter) (service_path : String) (home : QVariantMap)
    (roaming : QVariantMap) : Counter × List Effect :=
  let r1 := if !home.isEmpty then m_counter.serviceUsage service_path home false
            else (m_counter, [])
  let r2 := if !roaming.isEmpty then r1.1.serviceUsage service_path roaming true
            else (r1.1, [])
  (r2.1, r1.2 ++ r2.2)

end CounterAdaptor

/-! ## Sequences of usage reports -/

/-- One call of `serviceUsage`: its three arguments. -/
structure Report where
  servicePath : String
  counters : QVariantMap
  roaming : Bool
deriving DecidableEq

namespace Report

/-- The `rxbytes` local of `serviceUsage` for this report. -/
def rxbytes (r : Report) : Nat :=
  (r.counters.value "RX.Bytes").toULongLong

/-- The `txbytes` local of `serviceUsage` for this report. -/
def txbytes (r : Report) : Nat :=
  (r.counters.value "TX.Bytes").toULongLong

/-- The `time` local of `serviceUsage` for this report. -/
def time (r : Report) : Nat :=
  (r.counters.value "Time").toUInt

end Report

/-- The counter after `serviceUsage` has processed the reports in order. -/
def processReports (c : Counter) (rs : List Report) : Counter :=
  rs.foldl (fun s r => (s.serviceUsage r.servicePath r.counters r.roaming).1) c

/-- The last non-zero value of a list, or `init` when every value is zero
(the reading of "the most recent report whose value was non-zero"). -/
def lastNonZero (init : Nat) (vals : List Nat) : Nat :=
  (vals.reverse.find? (fun v => decide (v ≠ 0))).getD init

/-- The values a field extractor gives on the reports of one bucket, in order. -/
def reportedFor (bucket : Bool) (field : Report → Nat) (rs : List Report) : List Nat :=
  (rs.filter (fun r => r.roaming == bucket)).map field

/-! ## The scenario of the specification -/

/-- The first report of the scenario: `RX.Bytes` 100, `TX.Bytes` 0, `Time` 30. -/
def scenarioHome : QVariantMap :=
  [("RX.Bytes", QVariant.uLongLong 100), ("TX.Bytes", QVariant.uLongLong 0),
   ("Time", QVariant.uInt 30)]

/-- The second report of the scenario: `RX.Bytes` 0, `TX.Bytes` 50, `Time` 0. -/
def scenarioRoaming : QVariantMap :=
  [("RX.Bytes", QVariant.uLongLong 0), ("TX.Bytes", QVariant.uLongLong 50),
   ("Time", QVariant.uInt 0)]

/-- The counter with both buckets zero and the home bucket current, everything else kept. -/
def Counter.allZero (c : Counter) : Counter :=
  { c with
    bytesInHome := 0
    bytesOutHome := 0
    secondsOnlineHome := 0
    bytesInRoaming := 0
    bytesOutRoaming := 0
    secondsOnlineRoaming := 0
    roamingEnabled := false }

/-! ## The counter together with its manager -/

/-- Modelled from the spec: the counter next to the manager availability source ("reports
when the connectivity-management service becomes reachable/unreachable, and performs
register/unregister calls on request"). `managerAvailable` is what `m_manager->isAvailable()`
answers at present; `log` holds every effect produced so far, oldest first. -/
structure World where
  counter : Counter
  managerAvailable : Bool
  log : List Effect
deriving DecidableEq

/-- One event driving the counter: a call by the owning application, a call delivered by
the adaptor, or an `availabilityChanged` signal of the manager (with the result that
`registerObject` will give while it is handled). -/
inductive Op where
  | setRunning (on_ : Bool)
  | setAccuracy (accuracy : Nat)
  | setInterval (interval : Nat)
  | serviceUsage (servicePath : String) (counters : QVariantMap) (roaming : Bool)
  | usage (service_path : String) (home : QVariantMap) (roaming : QVariantMap)
  | release
  | availabilityChanged (available : Bool) (registerObjectOk : Bool)
deriving DecidableEq

namespace Op

/-- The event is the manager turning unavailable. -/
def isBecomeUnavailable : Op → Bool
  | availabilityChanged false _ => true
  | _ => false

/-- The event is a change of a registration parameter (`setAccuracy` or `setInterval`). -/
def isParameterChange : Op → Bool
  | setAccuracy _ => true
  | setInterval _ => true
  | _ => false

end Op

namespace World

/-- The member function an event invokes, run on the counter of the world. Modelled from
the spec: on `availabilityChanged` the manager first answers `isAvailable()` with the new
value and then the slot `updateMgrAvailability` runs. -/
def dispatch (w : World) : Op → Bool × (Counter × List Effect)
  | Op.setRunning on_ => (w.managerAvailable, w.counter.setRunning w.managerAvailable on_)
  | Op.setAccuracy v => (w.managerAvailable, w.counter.setAccuracy w.managerAvailable v)
  | Op.setInterval v => (w.managerAvailable, w.counter.setInterval w.managerAvailable v)
  | Op.serviceUsage sp m r => (w.managerAvailable, w.counter.serviceUsage sp m r)
  | Op.usage sp h r => (w.managerAvailable, CounterAdaptor.Usage w.counter sp h r)
  | Op.release => (w.managerAvailable, CounterAdaptor.Release w.counter)
  | Op.availabilityChanged a ok => (a, w.counter.updateMgrAvailability ok a a)

/-- The world after one event. -/
def step (w : World) (op : Op) : World :=
  let r := w.dispatch op
  { counter := r.2.1, managerAvailable := r.1, log := w.log ++ r.2.2 }

/-- The world after a sequence of events, oldest first. -/
def run (w : World) (ops : List Op) : World :=
  ops.foldl step w

/-- The world right after `Counter::Counter` has run, the manager answering
`isAvailable` throughout the constructor. -/
def fresh (randomValue : Nat) (serviceRegistered : Bool) (registerObjectOk : Bool)
    (isAvailable : Bool) : World :=
  let r := Counter.construct randomValue serviceRegistered registerObjectOk isAvailable
  { counter := r.1, managerAvailable := isAvailable, log := r.2 }

end World

/-- The most recent call on the manager among a list of effects (oldest first), if any. -/
def lastManagerCall (es : List Effect) : Option Effect :=
  (managerCalls es).getLast?

/-- The most recent call on the manager exists and is a `registerCounter`. -/
def lastCallIsRegister (es : List Effect) : Bool :=
  match lastManagerCall es with
  | some e => e.isRegister
  | none => false

/-! ## Buckets that do not fall back to zero -/

/-- Each of the six bucket fields that is non-zero in `before` is non-zero in `after`. -/
def keepsNonZero (before after : Counter) : Prop :=
  (before.bytesInHome ≠ 0 → after.bytesInHome ≠ 0)
  ∧ (before.bytesOutHome ≠ 0 → after.bytesOutHome ≠ 0)
  ∧ (before.secondsOnlineHome ≠ 0 → after.secondsOnlineHome ≠ 0)
  ∧ (before.bytesInRoaming ≠ 0 → after.bytesInRoaming ≠ 0)
  ∧ (before.bytesOutRoaming ≠ 0 → after.bytesOutRoaming ≠ 0)
  ∧ (before.secondsOnlineRoaming ≠ 0 → after.secondsOnlineRoaming ≠ 0)

instance (before after : Counter) : Decidable (keepsNonZero before after) := by
  unfold keepsNonZero
  infer_instance

/-! ## The parameters most recently set -/

namespace Op

/-- The accuracy an event sets, when it is a `setAccuracy`. -/
def accuracySet : Op → Option Nat
  | setAccuracy v => some v
  | _ => none

/-- The interval an event sets, when it is a `setInterval`. -/
def intervalSet : Op → Option Nat
  | setInterval v => some v
  | _ => none

end Op

/-- The value given by the most recent event of the sequence (oldest first) for which
`f` gives one, or `init` when there is none. -/
def latestOr (init : Nat) (f : Op → Option Nat) (ops : List Op) : Nat :=
  (ops.reverse.findSome? f).getD init

/-- The accuracy most recently set by `setAccuracy` in a sequence of events on a freshly
constructed counter, or the default of construction, 1024. -/
def latestAccuracy (ops : List Op) : Nat :=
  latestOr 1024 Op.accuracySet ops

/-- The interval most recently set by `setInterval` in a sequence of events on a freshly
constructed counter, or the default of construction, 1. -/
def latestInterval (ops : List Op) : Nat :=
  latestOr 1 Op.intervalSet ops

/-! ## Usage reports: accounting -/

theorem lastNonZero_nil (init : Nat) : lastNonZero init [] = init := by
  simp [lastNonZero]

theorem lastNonZero_cons (init v : Nat) (vs : List Nat) :
    lastNonZero init (v :: vs) = lastNonZero (if v ≠ 0 then v else init) vs := by
  unfold lastNonZero
  rw [List.reverse_cons, List.find?_append]
  cases h : (vs.reverse.find? (fun v => decide (v ≠ 0))) with
  | some w => simp
  | none =>
    by_cases hv : v = 0
    · simp [hv]
    · simp [hv]

/-- The six bucket fields after one `serviceUsage`, field by field. -/
theorem serviceUsage_fields (c : Counter) (sp : String) (m : QVariantMap) (r : Bool) :
    (c.serviceUsage sp m r).1.bytesInHome
        = (if r = false ∧ (m.value "RX.Bytes").toULongLong ≠ 0
            then (m.value "RX.Bytes").toULongLong else c.bytesInHome)
    ∧ (c.serviceUsage sp m r).1.bytesOutHome
        = (if r = false ∧ (m.value "TX.Bytes").toULongLong ≠ 0
            then (m.value "TX.Bytes").toULongLong else c.bytesOutHome)
    ∧ (c.serviceUsage sp m r).1.secondsOnlineHome
        = (if r = false ∧ (m.value "Time").toUInt ≠ 0
            then (m.value "Time").toUInt else c.secondsOnlineHome)
    ∧ (c.serviceUsage sp m r).1.bytesInRoaming
        = (if r = true ∧ (m.value "RX.Bytes").toULongLong ≠ 0
            then (m.value "RX.Bytes").toULongLong else c.bytesInRoaming)
    ∧ (c.serviceUsage sp m r).1.bytesOutRoaming
        = (if r = true ∧ (m.value "TX.Bytes").toULongLong ≠ 0
            then (m.value "TX.Bytes").toULongLong else c.bytesOutRoaming)
    ∧ (c.serviceUsage sp m r).1.secondsOnlineRoaming
        = (if r = true ∧ (m.value "Time").toUInt ≠ 0
            then (m.value "Time").toUInt else c.secondsOnlineRoaming) := by
  unfold Counter.serviceUsage
  generalize (m.value "RX.Bytes").toULongLong = rx
  generalize (m.value "TX.Bytes").toULongLong = tx
  generalize (m.value "Time").toUInt = t
  by_cases hrx : rx = 0 <;> by_cases htx : tx = 0 <;> by_cases ht : t = 0 <;>
    cases r <;> cases hre : c.roamingEnabled <;> simp [hrx, htx, ht, hre]

theorem processReports_cons (c : Counter) (r : Report) (rs : List Report) :
    processReports c (r :: rs)
      = processReports (c.serviceUsage r.servicePath r.counters r.roaming).1 rs := rfl

theorem processReports_append (c : Counter) (rs : List Report) (r : Report) :
    processReports c (rs ++ [r])
      = ((processReports c rs).serviceUsage r.servicePath r.counters r.roaming).1 := by
  simp [processReports, List.foldl_append]

/-- A field that every report either overwrites with its non-zero value (when the report is
for the bucket `b`) or leaves alone holds, after a sequence, the last non-zero value. -/
theorem processReports_field (g : Counter → Nat) (f : Report → Nat) (b : Bool)
    (hstep : ∀ (c : Counter) (r : Report),
      g (c.serviceUsage r.servicePath r.counters r.roaming).1
        = if r.roaming = b ∧ f r ≠ 0 then f r else g c)
    (c : Counter) (rs : List Report) :
    g (processReports c rs) = lastNonZero (g c) (reportedFor b f rs) := by
  induction rs generalizing c with
  | nil => simp [processReports, reportedFor, lastNonZero]
  | cons r rs ih =>
    rw [processReports_cons, ih, hstep]
    by_cases hb : r.roaming = b
    · have : reportedFor b f (r :: rs) = f r :: reportedFor b f rs := by
        simp [reportedFor, hb]
      rw [this, lastNonZero_cons]
      simp [hb]
    · have : reportedFor b f (r :: rs) = reportedFor b f rs := by
        simp [reportedFor, hb]
      rw [this]
      simp [hb]

/-- C1: after any finite sequence of usage reports, from any initial counter, each field of
each bucket holds the value of the most recent report for that bucket whose value for the
field was non-zero, or its initial value when there is none; and a single report whose
value for a field is zero leaves that field unchanged in both buckets. -/
theorem serviceUsage_last_nonzero (c : Counter) (rs : List Report) :
    ((processReports c rs).bytesInHome
        = lastNonZero c.bytesInHome (reportedFor false Report.rxbytes rs)
      ∧ (processReports c rs).bytesOutHome
        = lastNonZero c.bytesOutHome (reportedFor false Report.txbytes rs)
      ∧ (processReports c rs).secondsOnlineHome
        = lastNonZero c.secondsOnlineHome (reportedFor false Report.time rs)
      ∧ (processReports c rs).bytesInRoaming
        = lastNonZero c.bytesInRoaming (reportedFor true Report.rxbytes rs)
      ∧ (processReports c rs).bytesOutRoaming
        = lastNonZero c.bytesOutRoaming (reportedFor true Report.txbytes rs)
      ∧ (processReports c rs).secondsOnlineRoaming
        = lastNonZero c.secondsOnlineRoaming (reportedFor true Report.time rs))
    ∧ ∀ r : Report,
        (r.rxbytes = 0 →
          (c.serviceUsage r.servicePath r.counters r.roaming).1.bytesInHome = c.bytesInHome
          ∧ (c.serviceUsage r.servicePath r.counters r.roaming).1.bytesInRoaming
              = c.bytesInRoaming)
        ∧ (r.txbytes = 0 →
          (c.serviceUsage r.servicePath r.counters r.roaming).1.bytesOutHome = c.bytesOutHome
          ∧ (c.serviceUsage r.servicePath r.counters r.roaming).1.bytesOutRoaming
              = c.bytesOutRoaming)
        ∧ (r.time = 0 →
          (c.serviceUsage r.servicePath r.counters r.roaming).1.secondsOnlineHome
              = c.secondsOnlineHome
          ∧ (c.serviceUsage r.servicePath r.counters r.roaming).1.secondsOnlineRoaming
              = c.secondsOnlineRoaming) := by
  refine ⟨⟨?_, ?_, ?_, ?_, ?_, ?_⟩, ?_⟩
  · exact processReports_field (fun s => s.bytesInHome) Report.rxbytes false
      (fun s r => (serviceUsage_fields s r.servicePath r.counters r.roaming).1) c rs
  · exact processReports_field (fun s => s.bytesOutHome) Report.txbytes false
      (fun s r => (serviceUsage_fields s r.servicePath r.counters r.roaming).2.1) c rs
  · exact processReports_field (fun s => s.secondsOnlineHome) Report.time false
      (fun s r => (serviceUsage_fields s r.servicePath r.counters r.roaming).2.2.1) c rs
  · exact processReports_field (fun s => s.bytesInRoaming) Report.rxbytes true
      (fun s r => (serviceUsage_fields s r.servicePath r.counters r.roaming).2.2.2.1) c rs
  · exact processReports_field (fun s => s.bytesOutRoaming) Report.txbytes true
      (fun s r => (serviceUsage_fields s r.servicePath r.counters r.roaming).2.2.2.2.1) c rs
  · exact processReports_field (fun s => s.secondsOnlineRoaming) Report.time true
      (fun s r => (serviceUsage_fields s r.servicePath r.counters r.roaming).2.2.2.2.2) c rs
  · intro r
    obtain ⟨h1, h2, h3, h4, h5, h6⟩ :=
      serviceUsage_fields c r.servicePath r.counters r.roaming
    refine ⟨fun h => ?_, fun h => ?_, fun h => ?_⟩
    · rw [h1, h4]
      simp only [Report.rxbytes] at h
      simp [h]
    · rw [h2, h5]
      simp only [Report.txbytes] at h
      simp [h]
    · rw [h3, h6]
      simp only [Report.time] at h
      simp [h]

/-- Witness of C1 on three reports: the home report of the scenario, the roaming report of
the scenario, then a home report whose only entry is a zero `RX.Bytes`. -/
theorem serviceUsage_last_nonzero_witness :
    (processReports (Counter.initial 7)
        [⟨"/s", scenarioHome, false⟩, ⟨"/s", scenarioRoaming, true⟩,
         ⟨"/s", [("RX.Bytes", QVariant.uLongLong 0)], false⟩]).bytesInHome = 100
    ∧ ((Counter.initial 7).serviceUsage "/s" scenarioRoaming true).1.bytesInRoaming = 0 := by
  have h := serviceUsage_last_nonzero (Counter.initial 7)
    [⟨"/s", scenarioHome, false⟩, ⟨"/s", scenarioRoaming, true⟩,
     ⟨"/s", [("RX.Bytes", QVariant.uLongLong 0)], false⟩]
  refine ⟨h.1.1.trans (by decide), ?_⟩
  exact ((h.2 ⟨"/s", scenarioRoaming, true⟩).1 (by decide)).2

/-! ## Usage reports: what the accessors show -/

theorem serviceUsage_roamingEnabled (c : Counter) (sp : String) (m : QVariantMap) (r : Bool) :
    (c.serviceUsage sp m r).1.roamingEnabled = r := by
  unfold Counter.serviceUsage
  generalize (m.value "RX.Bytes").toULongLong = rx
  generalize (m.value "TX.Bytes").toULongLong = tx
  generalize (m.value "Time").toUInt = t
  by_cases hrx : rx = 0 <;> by_cases htx : tx = 0 <;> by_cases ht : t = 0 <;>
    cases r <;> cases hre : c.roamingEnabled <;> simp [hrx, htx, ht, hre]

theorem scenarioHome_values :
    (scenarioHome.value "RX.Bytes").toULongLong = 100
    ∧ (scenarioHome.value "TX.Bytes").toULongLong = 0
    ∧ (scenarioHome.value "Time").toUInt = 30 := by decide

theorem scenarioRoaming_values :
    (scenarioRoaming.value "RX.Bytes").toULongLong = 0
    ∧ (scenarioRoaming.value "TX.Bytes").toULongLong = 50
    ∧ (scenarioRoaming.value "Time").toUInt = 0 := by decide

/-- C2: the three accessors return the fields of the bucket selected by `roamingEnabled`;
so right after `serviceUsage` with flag `r` each returns the reported value when it is
non-zero and the previous value of bucket `r` otherwise. On the scenario: from an all-zero
state the home report gives 100, 0, 30 and `roaming()` false, and the roaming report that
follows gives `bytesReceived()` 0 and `bytesTransmitted()` 50. -/
theorem accessors_read_current_bucket (c : Counter) (sp : String) (m : QVariantMap)
    (r : Bool) :
    (c.bytesReceived = (if c.roamingEnabled then c.bytesInRoaming else c.bytesInHome)
      ∧ c.bytesTransmitted = (if c.roamingEnabled then c.bytesOutRoaming else c.bytesOutHome)
      ∧ c.secondsOnline
          = (if c.roamingEnabled then c.secondsOnlineRoaming else c.secondsOnlineHome))
    ∧ ((c.serviceUsage sp m r).1.bytesReceived
          = (if (m.value "RX.Bytes").toULongLong ≠ 0 then (m.value "RX.Bytes").toULongLong
             else if r then c.bytesInRoaming else c.bytesInHome)
      ∧ (c.serviceUsage sp m r).1.bytesTransmitted
          = (if (m.value "TX.Bytes").toULongLong ≠ 0 then (m.value "TX.Bytes").toULongLong
             else if r then c.bytesOutRoaming else c.bytesOutHome)
      ∧ (c.serviceUsage sp m r).1.secondsOnline
          = (if (m.value "Time").toUInt ≠ 0 then (m.value "Time").toUInt
             else if r then c.secondsOnlineRoaming else c.secondsOnlineHome))
    ∧ ((c.allZero.serviceUsage sp scenarioHome false).1.bytesReceived = 100
      ∧ (c.allZero.serviceUsage sp scenarioHome false).1.bytesTransmitted = 0
      ∧ (c.allZero.serviceUsage sp scenarioHome false).1.secondsOnline = 30
      ∧ (c.allZero.serviceUsage sp scenarioHome false).1.roaming = false
      ∧ (((c.allZero.serviceUsage sp scenarioHome false).1.serviceUsage
            sp scenarioRoaming true).1.bytesReceived = 0)
      ∧ (((c.allZero.serviceUsage sp scenarioHome false).1.serviceUsage
            sp scenarioRoaming true).1.bytesTransmitted = 50)) := by
  have key : ∀ (s : Counter) (n : QVariantMap) (b : Bool),
      (s.serviceUsage sp n b).1.bytesReceived
          = (if (n.value "RX.Bytes").toULongLong ≠ 0 then (n.value "RX.Bytes").toULongLong
             else if b then s.bytesInRoaming else s.bytesInHome)
      ∧ (s.serviceUsage sp n b).1.bytesTransmitted
          = (if (n.value "TX.Bytes").toULongLong ≠ 0 then (n.value "TX.Bytes").toULongLong
             else if b then s.bytesOutRoaming else s.bytesOutHome)
      ∧ (s.serviceUsage sp n b).1.secondsOnline
          = (if (n.value "Time").toUInt ≠ 0 then (n.value "Time").toUInt
             else if b then s.secondsOnlineRoaming else s.secondsOnlineHome) := by
    intro s n b
    obtain ⟨h1, h2, h3, h4, h5, h6⟩ := serviceUsage_fields s sp n b
    have hr := serviceUsage_roamingEnabled s sp n b
    simp only [Counter.bytesReceived, Counter.bytesTransmitted, Counter.secondsOnline,
      hr, h1, h2, h3, h4, h5, h6]
    cases b <;> simp
  obtain ⟨a1, a2, a3⟩ := scenarioHome_values
  obtain ⟨b1, b2, b3⟩ := scenarioRoaming_values
  refine ⟨⟨rfl, rfl, rfl⟩, key c m r, ?_⟩
  have k1 := key c.allZero scenarioHome false
  have k2 := key (c.allZero.serviceUsage sp scenarioHome false).1 scenarioRoaming true
  have f1 := serviceUsage_fields c.allZero sp scenarioHome false
  rw [a1, a2, a3] at k1 f1
  rw [b1, b2, b3] at k2
  refine ⟨?_, ?_, ?_, ?_, ?_, ?_⟩
  · rw [k1.1]; simp
  · rw [k1.2.1]; simp [Counter.allZero]
  · rw [k1.2.2]; simp
  · simp [Counter.roaming, serviceUsage_roamingEnabled]
  · rw [k2.1, f1.2.2.2.1]; simp [Counter.allZero]
  · rw [k2.2.1]; simp

/-- C3: a report only writes to the bucket of its roaming flag: a roaming report leaves the
three home fields unchanged and a home report leaves the three roaming fields unchanged.
On the scenario: with home holding rx 100 and time 30, the roaming report sets roaming
`txBytes` to 50 and leaves the home bucket as it was. -/
theorem serviceUsage_other_bucket_unchanged (c : Counter) (sp : String) (m : QVariantMap) :
    ((c.serviceUsage sp m true).1.bytesInHome = c.bytesInHome
      ∧ (c.serviceUsage sp m true).1.bytesOutHome = c.bytesOutHome
      ∧ (c.serviceUsage sp m true).1.secondsOnlineHome = c.secondsOnlineHome)
    ∧ ((c.serviceUsage sp m false).1.bytesInRoaming = c.bytesInRoaming
      ∧ (c.serviceUsage sp m false).1.bytesOutRoaming = c.bytesOutRoaming
      ∧ (c.serviceUsage sp m false).1.secondsOnlineRoaming = c.secondsOnlineRoaming)
    ∧ ((({ c with bytesInHome := 100, secondsOnlineHome := 30 } : Counter).serviceUsage
          sp scenarioRoaming true).1.bytesOutRoaming = 50
      ∧ (({ c with bytesInHome := 100, secondsOnlineHome := 30 } : Counter).serviceUsage
          sp scenarioRoaming true).1.bytesInHome = 100
      ∧ (({ c with bytesInHome := 100, secondsOnlineHome := 30 } : Counter).serviceUsage
          sp scenarioRoaming true).1.bytesOutHome = c.bytesOutHome
      ∧ (({ c with bytesInHome := 100, secondsOnlineHome := 30 } : Counter).serviceUsage
          sp scenarioRoaming true).1.secondsOnlineHome = 30) := by
  obtain ⟨t1, t2, t3, -, -, -⟩ := serviceUsage_fields c sp m true
  obtain ⟨-, -, -, f4, f5, f6⟩ := serviceUsage_fields c sp m false
  obtain ⟨s1, s2, s3, -, s5, -⟩ := serviceUsage_fields
    ({ c with bytesInHome := 100, secondsOnlineHome := 30 } : Counter) sp scenarioRoaming true
  obtain ⟨b1, b2, b3⟩ := scenarioRoaming_values
  rw [b1] at s1
  rw [b2] at s2 s5
  rw [b3] at s3
  refine ⟨⟨?_, ?_, ?_⟩, ⟨?_, ?_, ?_⟩, ?_, ?_, ?_, ?_⟩
  · rw [t1]; simp
  · rw [t2]; simp
  · rw [t3]; simp
  · rw [f4]; simp
  · rw [f5]; simp
  · rw [f6]; simp
  · rw [s5]; simp
  · rw [s1]; simp
  · rw [s2]; simp
  · rw [s3]; simp

/-- C4: after `serviceUsage(service, counters, isRoaming)` the accessor `roaming()` returns
`isRoaming`, whatever the payload (the empty payload included); after a non-empty sequence
of reports it returns the flag of the last one. -/
theorem roaming_is_last_flag (c : Counter) (sp : String) (m : QVariantMap) (r : Bool)
    (rs : List Report) (last : Report) :
    (c.serviceUsage sp m r).1.roaming = r
    ∧ (c.serviceUsage sp [] r).1.roaming = r
    ∧ (processReports c (rs ++ [last])).roaming = last.roaming := by
  refine ⟨?_, ?_, ?_⟩
  · exact serviceUsage_roamingEnabled c sp m r
  · exact serviceUsage_roamingEnabled c sp [] r
  · rw [processReports_append]
    exact serviceUsage_roamingEnabled _ _ _ _

/-! ## Registration: the setters -/

/-- C5: with the manager available `setAccuracy(v)` and `setInterval(v)` each make exactly
two manager calls, `unregisterCounter(path)` then `registerCounter(path, accuracy, interval)`
with the parameter already updated, and none with the manager unavailable; both make the
calls of `reRegister` on the updated counter, and the calls do not depend on `isRunning`
or `shouldBeRunning`. -/
theorem setters_reRegister (c : Counter) (v : Nat) (isAvailable a b : Bool) :
    (managerCalls (c.setAccuracy true v).2
        = [Effect.unregisterCounter c.counterPath,
           Effect.registerCounter c.counterPath v c.currentInterval]
      ∧ managerCalls (c.setInterval true v).2
        = [Effect.unregisterCounter c.counterPath,
           Effect.registerCounter c.counterPath c.currentAccuracy v])
    ∧ (managerCalls (c.setAccuracy false v).2 = []
      ∧ managerCalls (c.setInterval false v).2 = [])
    ∧ (managerCalls (c.setAccuracy isAvailable v).2
        = (({ c with currentAccuracy := v } : Counter).reRegister isAvailable).2
      ∧ managerCalls (c.setInterval isAvailable v).2
        = (({ c with currentInterval := v } : Counter).reRegister isAvailable).2)
    ∧ (managerCalls
          (({ c with isRunning := a, shouldBeRunning := b } : Counter).setAccuracy
            isAvailable v).2
        = managerCalls (c.setAccuracy isAvailable v).2
      ∧ managerCalls
          (({ c with isRunning := a, shouldBeRunning := b } : Counter).setInterval
            isAvailable v).2
        = managerCalls (c.setInterval isAvailable v).2) := by
  refine ⟨⟨?_, ?_⟩, ⟨?_, ?_⟩, ⟨?_, ?_⟩, ⟨?_, ?_⟩⟩ <;>
    first
    | (simp [Counter.setAccuracy, Counter.setInterval, Counter.reRegister, managerCalls,
        Effect.isManagerCall]; done)
    | (cases isAvailable <;>
        simp [Counter.setAccuracy, Counter.setInterval, Counter.reRegister, managerCalls,
          Effect.isManagerCall])

/-- C6: with the manager available, `setRunning(true)` makes exactly one call,
`registerCounter(path, accuracy, interval)`, sets `isRunning` and emits
`runningChanged(true)`; `setRunning(false)` makes exactly one call, `unregisterCounter(path)`,
clears `isRunning` and emits `runningChanged(false)`; a repeated `setRunning(true)` is not
suppressed: the two calls together register twice. -/
theorem setRunning_available (c : Counter) :
    ((c.setRunning true true).2
        = [Effect.registerCounter c.counterPath c.currentAccuracy c.currentInterval,
           Effect.runningChanged true]
      ∧ (c.setRunning true true).1.isRunning = true)
    ∧ ((c.setRunning true false).2
        = [Effect.unregisterCounter c.counterPath, Effect.runningChanged false]
      ∧ (c.setRunning true false).1.isRunning = false)
    ∧ managerCalls ((c.setRunning true true).2
          ++ ((c.setRunning true true).1.setRunning true true).2)
        = [Effect.registerCounter c.counterPath c.currentAccuracy c.currentInterval,
           Effect.registerCounter c.counterPath c.currentAccuracy c.currentInterval] := by
  have hon : c.setRunning true true
      = ({ c with shouldBeRunning := true, isRunning := true },
         [Effect.registerCounter c.counterPath c.currentAccuracy c.currentInterval,
          Effect.runningChanged true]) := by
    simp [Counter.setRunning]
  have hoff : c.setRunning true false
      = ({ c with shouldBeRunning := false, isRunning := false },
         [Effect.unregisterCounter c.counterPath, Effect.runningChanged false]) := by
    simp [Counter.setRunning]
  refine ⟨⟨?_, ?_⟩, ⟨?_, ?_⟩, ?_⟩
  · rw [hon]
  · rw [hon]
  · rw [hoff]
  · rw [hoff]
  · rw [hon]
    simp [Counter.setRunning, managerCalls, Effect.isManagerCall]

/-- C7: with the manager unavailable, `setRunning(on)` stores `on` in `shouldBeRunning`
and does nothing else: every other member is unchanged (so `running()` is unchanged) and
no effect is produced, neither a manager call nor a signal. -/
theorem setRunning_unavailable (c : Counter) (on_ : Bool) :
    c.setRunning false on_ = ({ c with shouldBeRunning := on_ }, [])
    ∧ (c.setRunning false on_).1.running = c.running := by
  cases on_ <;> simp [Counter.setRunning, Counter.running]

/-- C8: a start requested while the manager is unavailable is carried out when it becomes
available. From a world whose counter is not running and whose manager is unavailable,
`setRunning(true)` leaves `running()` false and produces no effect; the following
`availabilityChanged(true)`, with `registerObject` succeeding, produces exactly the adaptor,
the object registration, one `registerCounter(path, accuracy, interval)` and one
`runningChanged(true)`, so one manager call, no unregister, and `running()` is true. -/
theorem deferred_start_reconciled (w : World) (hrun : w.counter.isRunning = false)
    (hmgr : w.managerAvailable = false) :
    ((w.step (Op.setRunning true)).counter.running = false
      ∧ (w.step (Op.setRunning true)).log = w.log)
    ∧ (((w.step (Op.setRunning true)).step (Op.availabilityChanged true true)).log
        = w.log ++ [Effect.newCounterAdaptor, Effect.registerObject w.counter.counterPath,
            Effect.registerCounter w.counter.counterPath w.counter.currentAccuracy
              w.counter.currentInterval,
            Effect.runningChanged true]
      ∧ ((w.step (Op.setRunning true)).step
            (Op.availabilityChanged true true)).counter.running = true
      ∧ ((w.step (Op.setRunning true)).step (Op.availabilityChanged true true)).managerAvailable
          = true) := by
  simp [World.step, World.dispatch, Counter.setRunning, Counter.updateMgrAvailability,
    Counter.running, hrun, hmgr]

/-- Witness of C8 on the freshly constructed counter 7 with the manager unavailable. -/
theorem deferred_start_reconciled_witness :
    (((World.fresh 7 false false false).step (Op.setRunning true)).step
        (Op.availabilityChanged true true)).log
      = [Effect.newCounterAdaptor, Effect.registerObject "/ConnectivityCounter7",
         Effect.registerCounter "/ConnectivityCounter7" 1024 1, Effect.runningChanged true]
    ∧ (((World.fresh 7 false false false).step (Op.setRunning true)).step
        (Op.availabilityChanged true true)).counter.running = true :=
  ⟨(deferred_start_reconciled (World.fresh 7 false false false) rfl rfl).2.1.trans
      (by decide),
    (deferred_start_reconciled (World.fresh 7 false false false) rfl rfl).2.2.1⟩

/-! ## Registration: reachable states -/

theorem serviceUsage_registration (c : Counter) (sp : String) (m : QVariantMap) (r : Bool) :
    (c.serviceUsage sp m r).1.isRunning = c.isRunning
    ∧ (c.serviceUsage sp m r).1.shouldBeRunning = c.shouldBeRunning
    ∧ (c.serviceUsage sp m r).1.currentAccuracy = c.currentAccuracy
    ∧ (c.serviceUsage sp m r).1.currentInterval = c.currentInterval
    ∧ (c.serviceUsage sp m r).1.counterPath = c.counterPath := by
  unfold Counter.serviceUsage
  generalize (m.value "RX.Bytes").toULongLong = rx
  generalize (m.value "TX.Bytes").toULongLong = tx
  generalize (m.value "Time").toUInt = t
  by_cases hrx : rx = 0 <;> by_cases htx : tx = 0 <;> by_cases ht : t = 0 <;>
    cases r <;> cases hre : c.roamingEnabled <;> simp [hrx, htx, ht, hre]

theorem serviceUsage_managerCalls (c : Counter) (sp : String) (m : QVariantMap) (r : Bool) :
    managerCalls (c.serviceUsage sp m r).2 = [] := by
  unfold Counter.serviceUsage
  generalize (m.value "RX.Bytes").toULongLong = rx
  generalize (m.value "TX.Bytes").toULongLong = tx
  generalize (m.value "Time").toUInt = t
  by_cases hrx : rx = 0 <;> by_cases htx : tx = 0 <;> by_cases ht : t = 0 <;>
    cases r <;> cases hre : c.roamingEnabled <;>
    simp [hrx, htx, ht, hre, managerCalls, Effect.isManagerCall]

theorem Usage_registration (c : Counter) (sp : String) (h r : QVariantMap) :
    (CounterAdaptor.Usage c sp h r).1.isRunning = c.isRunning
    ∧ (CounterAdaptor.Usage c sp h r).1.shouldBeRunning = c.shouldBeRunning
    ∧ (CounterAdaptor.Usage c sp h r).1.currentAccuracy = c.currentAccuracy
    ∧ (CounterAdaptor.Usage c sp h r).1.currentInterval = c.currentInterval
    ∧ (CounterAdaptor.Usage c sp h r).1.counterPath = c.counterPath := by
  unfold CounterAdaptor.Usage
  cases hh : h.isEmpty <;> cases hr : r.isEmpty <;>
    simp [serviceUsage_registration]

theorem Usage_managerCalls (c : Counter) (sp : String) (h r : QVariantMap) :
    managerCalls (CounterAdaptor.Usage c sp h r).2 = [] := by
  unfold CounterAdaptor.Usage
  have key : ∀ (a b : List Effect), managerCalls (a ++ b) = managerCalls a ++ managerCalls b :=
    fun a b => by simp [managerCalls]
  cases hh : h.isEmpty <;> cases hr : r.isEmpty <;>
    simp only [Bool.not_false, Bool.not_true, if_true, Bool.false_eq_true, if_false, key,
      serviceUsage_managerCalls, List.append_nil] <;>
    rfl

theorem managerCalls_append (a b : List Effect) :
    managerCalls (a ++ b) = managerCalls a ++ managerCalls b := by
  simp [managerCalls]

theorem lastCallIsRegister_append_none (l es : List Effect) (h : managerCalls es = []) :
    lastCallIsRegister (l ++ es) = lastCallIsRegister l := by
  simp [lastCallIsRegister, lastManagerCall, managerCalls_append, h]

theorem lastCallIsRegister_append (l es : List Effect) :
    lastCallIsRegister (l ++ es)
      = if (managerCalls es).isEmpty then lastCallIsRegister l else lastCallIsRegister es := by
  cases h : managerCalls es with
  | nil => simp [lastCallIsRegister, lastManagerCall, managerCalls_append, h]
  | cons x xs =>
    cases h2 : (x :: xs).getLast? with
    | none => simp at h2
    | some y => simp [lastCallIsRegister, lastManagerCall, managerCalls_append, h, h2]

theorem run_cons (w : World) (op : Op) (ops : List Op) :
    w.run (op :: ops) = (w.step op).run ops := rfl

/-- A property of worlds kept by every event of a sequence holds at its end. -/
theorem run_invariant (P : World → Prop) (Q : Op → Prop)
    (hstep : ∀ (w : World) (op : Op), P w → Q op → P (w.step op))
    (w : World) (ops : List Op) (h0 : P w) (hops : ∀ op ∈ ops, Q op) :
    P (w.run ops) := by
  induction ops generalizing w with
  | nil => exact h0
  | cons op ops ih =>
    rw [run_cons]
    exact ih (w.step op) (hstep w op h0 (hops op (List.mem_cons_self _ _)))
      (fun o ho => hops o (List.mem_cons_of_mem _ ho))

theorem fresh_isRunning (n : Nat) (sr ok av : Bool) :
    (World.fresh n sr ok av).counter.isRunning = false := by
  cases sr <;> cases ok <;> cases av <;>
    simp [World.fresh, Counter.construct, Counter.updateMgrAvailability, Counter.setRunning,
      Counter.initial]

theorem fresh_lastCallIsRegister (n : Nat) (sr ok av : Bool) :
    lastCallIsRegister (World.fresh n sr ok av).log = false := by
  cases sr <;> cases ok <;> cases av <;>
    simp [World.fresh, Counter.construct, Counter.updateMgrAvailability, Counter.setRunning,
      Counter.initial, lastCallIsRegister, lastManagerCall, managerCalls, Effect.isManagerCall,
      Effect.isRegister]

/-- One event other than the manager turning unavailable keeps: `isRunning` only if the
manager is available and `shouldBeRunning`. -/
theorem step_running_justified (w : World) (op : Op)
    (hinv : w.counter.isRunning = true →
      w.managerAvailable = true ∧ w.counter.shouldBeRunning = true)
    (hop : op.isBecomeUnavailable = false) :
    (w.step op).counter.isRunning = true →
      (w.step op).managerAvailable = true ∧ (w.step op).counter.shouldBeRunning = true := by
  cases op with
  | setRunning b =>
    cases b <;> cases hm : w.managerAvailable <;> cases hr : w.counter.isRunning <;>
      simp_all [World.step, World.dispatch, Counter.setRunning]
  | setAccuracy v =>
    cases hm : w.managerAvailable <;>
      simp_all [World.step, World.dispatch, Counter.setAccuracy, Counter.reRegister]
  | setInterval v =>
    cases hm : w.managerAvailable <;>
      simp_all [World.step, World.dispatch, Counter.setInterval, Counter.reRegister]
  | serviceUsage sp m r =>
    obtain ⟨h1, h2, -⟩ := serviceUsage_registration w.counter sp m r
    simp only [World.step, World.dispatch, h1, h2]
    exact hinv
  | usage sp h r =>
    obtain ⟨h1, h2, -⟩ := Usage_registration w.counter sp h r
    simp only [World.step, World.dispatch, h1, h2]
    exact hinv
  | release =>
    simpa [World.step, World.dispatch, CounterAdaptor.Release, Counter.release] using hinv
  | availabilityChanged a ok =>
    cases a with
    | false => simp [Op.isBecomeUnavailable] at hop
    | true =>
      cases ok <;> cases hs : w.counter.shouldBeRunning <;>
        cases hr : w.counter.isRunning <;>
        simp_all [World.step, World.dispatch, Counter.updateMgrAvailability,
          Counter.setRunning]

/-- C9, as amended: in every state reached from a freshly constructed counter by a sequence
of events in which the manager never turns unavailable, `isRunning` is true only if the
manager is available and `shouldBeRunning` is true. -/
theorem isRunning_only_if_available_and_requested (n : Nat) (sr ok av : Bool)
    (ops : List Op) (hops : ∀ op ∈ ops, op.isBecomeUnavailable = false) :
    ((World.fresh n sr ok av).run ops).counter.isRunning = true →
      ((World.fresh n sr ok av).run ops).managerAvailable = true
      ∧ ((World.fresh n sr ok av).run ops).counter.shouldBeRunning = true := by
  refine run_invariant
    (fun w => w.counter.isRunning = true →
      w.managerAvailable = true ∧ w.counter.shouldBeRunning = true)
    (fun op => op.isBecomeUnavailable = false)
    step_running_justified (World.fresh n sr ok av) ops ?_ hops
  intro h
  rw [fresh_isRunning] at h
  exact absurd h (by decide)

/-- Witness of the amended C9: constructed with the manager unavailable, start requested,
manager turning available, interval changed, a home report. -/
theorem isRunning_only_if_available_and_requested_witness :
    ((World.fresh 7 false false false).run
        [Op.setRunning true, Op.availabilityChanged true true, Op.setInterval 5,
         Op.serviceUsage "/s" scenarioHome false]).managerAvailable = true
    ∧ ((World.fresh 7 false false false).run
        [Op.setRunning true, Op.availabilityChanged true true, Op.setInterval 5,
         Op.serviceUsage "/s" scenarioHome false]).counter.shouldBeRunning = true :=
  isRunning_only_if_available_and_requested 7 false false false
    [Op.setRunning true, Op.availabilityChanged true true, Op.setInterval 5,
     Op.serviceUsage "/s" scenarioHome false]
    (by decide) (by decide)

/-- C9 as stated fails: a counter constructed with the manager available and started keeps
`isRunning` when the manager turns unavailable. -/
theorem isRunning_while_unavailable :
    ¬ (((World.fresh 7 true true true).run
          [Op.setRunning true, Op.availabilityChanged false false]).counter.isRunning = true →
        ((World.fresh 7 true true true).run
          [Op.setRunning true, Op.availabilityChanged false false]).managerAvailable = true
        ∧ ((World.fresh 7 true true true).run
          [Op.setRunning true, Op.availabilityChanged false false]).counter.shouldBeRunning
            = true) := by
  decide

/-- With the manager available, one event other than the manager turning unavailable keeps:
the manager is available, and `isRunning` only if the last manager call is a register. -/
theorem step_running_registered (w : World) (op : Op)
    (hinv : w.managerAvailable = true
      ∧ (w.counter.isRunning = true → lastCallIsRegister w.log = true))
    (hop : op.isBecomeUnavailable = false) :
    (w.step op).managerAvailable = true
      ∧ ((w.step op).counter.isRunning = true → lastCallIsRegister (w.step op).log = true) := by
  obtain ⟨hm, hr⟩ := hinv
  cases op with
  | setRunning b =>
    cases b
    · simp [World.step, World.dispatch, Counter.setRunning, hm]
    · refine ⟨by simp [World.step, World.dispatch, hm], fun _ => ?_⟩
      simp only [World.step, World.dispatch, Counter.setRunning, hm, if_true]
      rw [lastCallIsRegister_append]; rfl
  | setAccuracy v =>
    refine ⟨by simp [World.step, World.dispatch, hm], fun _ => ?_⟩
    simp only [World.step, World.dispatch, Counter.setAccuracy, Counter.reRegister, hm, if_true]
    rw [lastCallIsRegister_append]; rfl
  | setInterval v =>
    refine ⟨by simp [World.step, World.dispatch, hm], fun _ => ?_⟩
    simp only [World.step, World.dispatch, Counter.setInterval, Counter.reRegister, hm, if_true]
    rw [lastCallIsRegister_append]; rfl
  | serviceUsage sp m r =>
    obtain ⟨h1, -⟩ := serviceUsage_registration w.counter sp m r
    simp only [World.step, World.dispatch, h1,
      lastCallIsRegister_append_none _ _ (serviceUsage_managerCalls w.counter sp m r)]
    exact ⟨hm, hr⟩
  | usage sp h r =>
    obtain ⟨h1, -⟩ := Usage_registration w.counter sp h r
    simp only [World.step, World.dispatch, h1,
      lastCallIsRegister_append_none _ _ (Usage_managerCalls w.counter sp h r)]
    exact ⟨hm, hr⟩
  | release =>
    simpa [World.step, World.dispatch, CounterAdaptor.Release, Counter.release] using ⟨hm, hr⟩
  | availabilityChanged a ok =>
    cases a with
    | false => simp [Op.isBecomeUnavailable] at hop
    | true =>
      refine ⟨by simp [World.step, World.dispatch], ?_⟩
      cases ok
      · intro h
        have h2 : w.counter.isRunning = true := by
          simpa [World.step, World.dispatch, Counter.updateMgrAvailability] using h
        simp only [World.step, World.dispatch, Counter.updateMgrAvailability]
        rw [lastCallIsRegister_append]; exact hr h2
      · cases hs : w.counter.shouldBeRunning
        · simp [World.step, World.dispatch, Counter.updateMgrAvailability,
            Counter.setRunning, hs]
        · intro _
          simp only [World.step, World.dispatch, Counter.updateMgrAvailability,
            Counter.setRunning, hs]
          rw [lastCallIsRegister_append]; rfl

/-- With the manager available, one event that neither makes the manager unavailable nor
changes a registration parameter keeps: the manager is available, and `isRunning` equals
"the last manager call is a register". -/
theorem step_running_iff_registered (w : World) (op : Op)
    (hinv : w.managerAvailable = true ∧ w.counter.isRunning = lastCallIsRegister w.log)
    (hop : op.isBecomeUnavailable = false ∧ op.isParameterChange = false) :
    (w.step op).managerAvailable = true
      ∧ (w.step op).counter.isRunning = lastCallIsRegister (w.step op).log := by
  obtain ⟨hm, hr⟩ := hinv
  cases op with
  | setRunning b =>
    refine ⟨by simp [World.step, World.dispatch, hm], ?_⟩
    cases b
    · simp only [World.step, World.dispatch, Counter.setRunning, hm, if_true]
      rw [lastCallIsRegister_append]; rfl
    · simp only [World.step, World.dispatch, Counter.setRunning, hm, if_true]
      rw [lastCallIsRegister_append]; rfl
  | setAccuracy v => simp [Op.isParameterChange] at hop
  | setInterval v => simp [Op.isParameterChange] at hop
  | serviceUsage sp m r =>
    obtain ⟨h1, -⟩ := serviceUsage_registration w.counter sp m r
    simp only [World.step, World.dispatch, h1,
      lastCallIsRegister_append_none _ _ (serviceUsage_managerCalls w.counter sp m r)]
    exact ⟨hm, hr⟩
  | usage sp h r =>
    obtain ⟨h1, -⟩ := Usage_registration w.counter sp h r
    simp only [World.step, World.dispatch, h1,
      lastCallIsRegister_append_none _ _ (Usage_managerCalls w.counter sp h r)]
    exact ⟨hm, hr⟩
  | release =>
    simpa [World.step, World.dispatch, CounterAdaptor.Release, Counter.release] using ⟨hm, hr⟩
  | availabilityChanged a ok =>
    cases a with
    | false => simp [Op.isBecomeUnavailable] at hop
    | true =>
      refine ⟨by simp [World.step, World.dispatch], ?_⟩
      cases ok
      · simp only [World.step, World.dispatch, Counter.updateMgrAvailability]
        rw [lastCallIsRegister_append]; exact hr
      · cases hs : w.counter.shouldBeRunning
        · simp only [World.step, World.dispatch, Counter.updateMgrAvailability,
            Counter.setRunning, hs]
          rw [lastCallIsRegister_append]; rfl
        · simp only [World.step, World.dispatch, Counter.updateMgrAvailability,
            Counter.setRunning, hs]
          rw [lastCallIsRegister_append]; rfl

/-- C10, as amended: in every state reached from a freshly constructed counter by a sequence
of public operations with the manager available throughout, `running()` is true only if the
most recent manager call was a `registerCounter` (so it is false when no call was made or
the most recent one was an unregister); and when the sequence holds no `setAccuracy` and no
`setInterval`, `running()` is true exactly when the most recent call was a `registerCounter`. -/
theorem running_only_if_last_call_register (n : Nat) (sr ok : Bool) (ops : List Op)
    (hops : ∀ op ∈ ops, op.isBecomeUnavailable = false) :
    (((World.fresh n sr ok true).run ops).counter.running = true →
        lastCallIsRegister ((World.fresh n sr ok true).run ops).log = true)
    ∧ ((∀ op ∈ ops, op.isParameterChange = false) →
        (((World.fresh n sr ok true).run ops).counter.running = true ↔
          lastCallIsRegister ((World.fresh n sr ok true).run ops).log = true)) := by
  constructor
  · refine (run_invariant
      (fun w => w.managerAvailable = true
        ∧ (w.counter.isRunning = true → lastCallIsRegister w.log = true))
      (fun op => op.isBecomeUnavailable = false)
      step_running_registered (World.fresh n sr ok true) ops ⟨rfl, ?_⟩ hops).2
    intro h
    rw [fresh_isRunning] at h
    exact absurd h (by decide)
  · intro hpar
    have h := (run_invariant
      (fun w => w.managerAvailable = true ∧ w.counter.isRunning = lastCallIsRegister w.log)
      (fun op => op.isBecomeUnavailable = false ∧ op.isParameterChange = false)
      step_running_iff_registered (World.fresh n sr ok true) ops
      ⟨rfl, by rw [fresh_isRunning, fresh_lastCallIsRegister]⟩
      (fun op hop => ⟨hops op hop, hpar op hop⟩)).2
    simp only [Counter.running]
    rw [h]

/-- Witness of the amended C10: start, interval change, a roaming report. -/
theorem running_only_if_last_call_register_witness :
    lastCallIsRegister ((World.fresh 7 true true true).run
        [Op.setRunning true, Op.setInterval 5,
         Op.serviceUsage "/s" scenarioRoaming true]).log = true
    ∧ (((World.fresh 7 true true true).run
          [Op.setRunning true, Op.setRunning false]).counter.running = true ↔
        lastCallIsRegister ((World.fresh 7 true true true).run
          [Op.setRunning true, Op.setRunning false]).log = true) :=
  ⟨(running_only_if_last_call_register 7 true true
      [Op.setRunning true, Op.setInterval 5, Op.serviceUsage "/s" scenarioRoaming true]
      (by decide)).1 (by decide),
   (running_only_if_last_call_register 7 true true
      [Op.setRunning true, Op.setRunning false] (by decide)).2 (by decide)⟩

/-- C10 as stated fails: on a freshly constructed counter that is not running, with the
manager available, `setAccuracy` re-registers, so the most recent manager call is a
`registerCounter` while `running()` is false. -/
theorem registered_while_not_running :
    ¬ (((World.fresh 7 true true true).run [Op.setAccuracy 2048]).counter.running = true ↔
        lastCallIsRegister ((World.fresh 7 true true true).run [Op.setAccuracy 2048]).log
          = true) := by
  decide

/-! ## Setters and accounting -/

/-- C11: re-registration does not reset the accounting: `setAccuracy(v)` and `setInterval(v)`
change nothing but the parameter they store, whether or not the manager is available; the
six bucket fields and `roamingEnabled` are as before, and so are the values returned by
`bytesReceived()`, `bytesTransmitted()`, `secondsOnline()` and `roaming()`. -/
theorem setters_keep_accounting (c : Counter) (isAvailable : Bool) (v : Nat) :
    ((c.setAccuracy isAvailable v).1 = { c with currentAccuracy := v }
      ∧ (c.setInterval isAvailable v).1 = { c with currentInterval := v })
    ∧ ((c.setAccuracy isAvailable v).1.bytesInHome = c.bytesInHome
      ∧ (c.setAccuracy isAvailable v).1.bytesOutHome = c.bytesOutHome
      ∧ (c.setAccuracy isAvailable v).1.secondsOnlineHome = c.secondsOnlineHome
      ∧ (c.setAccuracy isAvailable v).1.bytesInRoaming = c.bytesInRoaming
      ∧ (c.setAccuracy isAvailable v).1.bytesOutRoaming = c.bytesOutRoaming
      ∧ (c.setAccuracy isAvailable v).1.secondsOnlineRoaming = c.secondsOnlineRoaming
      ∧ (c.setAccuracy isAvailable v).1.roamingEnabled = c.roamingEnabled)
    ∧ ((c.setInterval isAvailable v).1.bytesInHome = c.bytesInHome
      ∧ (c.setInterval isAvailable v).1.bytesOutHome = c.bytesOutHome
      ∧ (c.setInterval isAvailable v).1.secondsOnlineHome = c.secondsOnlineHome
      ∧ (c.setInterval isAvailable v).1.bytesInRoaming = c.bytesInRoaming
      ∧ (c.setInterval isAvailable v).1.bytesOutRoaming = c.bytesOutRoaming
      ∧ (c.setInterval isAvailable v).1.secondsOnlineRoaming = c.secondsOnlineRoaming
      ∧ (c.setInterval isAvailable v).1.roamingEnabled = c.roamingEnabled)
    ∧ ((c.setAccuracy isAvailable v).1.bytesReceived = c.bytesReceived
      ∧ (c.setAccuracy isAvailable v).1.bytesTransmitted = c.bytesTransmitted
      ∧ (c.setAccuracy isAvailable v).1.secondsOnline = c.secondsOnline
      ∧ (c.setAccuracy isAvailable v).1.roaming = c.roaming)
    ∧ ((c.setInterval isAvailable v).1.bytesReceived = c.bytesReceived
      ∧ (c.setInterval isAvailable v).1.bytesTransmitted = c.bytesTransmitted
      ∧ (c.setInterval isAvailable v).1.secondsOnline = c.secondsOnline
      ∧ (c.setInterval isAvailable v).1.roaming = c.roaming) := by
  have ha : (c.setAccuracy isAvailable v).1 = { c with currentAccuracy := v } := by
    cases isAvailable <;> simp [Counter.setAccuracy, Counter.reRegister]
  have hi : (c.setInterval isAvailable v).1 = { c with currentInterval := v } := by
    cases isAvailable <;> simp [Counter.setInterval, Counter.reRegister]
  refine ⟨⟨ha, hi⟩, ?_, ?_, ?_, ?_⟩
  · rw [ha]
    exact ⟨rfl, rfl, rfl, rfl, rfl, rfl, rfl⟩
  · rw [hi]
    exact ⟨rfl, rfl, rfl, rfl, rfl, rfl, rfl⟩
  · rw [ha]
    exact ⟨rfl, rfl, rfl, rfl⟩
  · rw [hi]
    exact ⟨rfl, rfl, rfl, rfl⟩

/-! ## Usage reports: the events -/

/-- C12: the effects of `serviceUsage(service, counters, isRoaming)` are signals only, and
are exactly: `counterChanged(service, counters, isRoaming)`, always and first; then
`roamingChanged(isRoaming)` exactly when `isRoaming` differs from the previous
`roamingEnabled`; then `bytesReceivedChanged(rx)`, `bytesTransmittedChanged(tx)` and
`secondsOnlineChanged(time)`, in this order, each exactly when its value is non-zero and
each carrying the extracted value, whatever the bucket. -/
theorem serviceUsage_events (c : Counter) (sp : String) (m : QVariantMap) (r : Bool) :
    (c.serviceUsage sp m r).2
      = [Effect.counterChanged sp m r]
        ++ (if r ≠ c.roamingEnabled then [Effect.roamingChanged r] else [])
        ++ (if (m.value "RX.Bytes").toULongLong ≠ 0
              then [Effect.bytesReceivedChanged (m.value "RX.Bytes").toULongLong] else [])
        ++ (if (m.value "TX.Bytes").toULongLong ≠ 0
              then [Effect.bytesTransmittedChanged (m.value "TX.Bytes").toULongLong] else [])
        ++ (if (m.value "Time").toUInt ≠ 0
              then [Effect.secondsOnlineChanged (m.value "Time").toUInt] else [])
    ∧ signals (c.serviceUsage sp m r).2 = (c.serviceUsage sp m r).2
    ∧ (c.serviceUsage sp m r).2.head? = some (Effect.counterChanged sp m r)
    ∧ (∀ b : Bool, Effect.roamingChanged b ∈ (c.serviceUsage sp m r).2
        ↔ (b = r ∧ r ≠ c.roamingEnabled))
    ∧ (∀ v : Nat, Effect.bytesReceivedChanged v ∈ (c.serviceUsage sp m r).2
        ↔ (v = (m.value "RX.Bytes").toULongLong ∧ v ≠ 0))
    ∧ (∀ v : Nat, Effect.bytesTransmittedChanged v ∈ (c.serviceUsage sp m r).2
        ↔ (v = (m.value "TX.Bytes").toULongLong ∧ v ≠ 0))
    ∧ (∀ v : Nat, Effect.secondsOnlineChanged v ∈ (c.serviceUsage sp m r).2
        ↔ (v = (m.value "Time").toUInt ∧ v ≠ 0)) := by
  unfold Counter.serviceUsage
  generalize (m.value "RX.Bytes").toULongLong = rx
  generalize (m.value "TX.Bytes").toULongLong = tx
  generalize (m.value "Time").toUInt = t
  refine ⟨rfl, ?_, rfl, ?_, ?_, ?_, ?_⟩
  · by_cases hrx : rx = 0 <;> by_cases htx : tx = 0 <;> by_cases ht : t = 0 <;>
      cases r <;> cases hre : c.roamingEnabled <;>
      simp [hrx, htx, ht, signals, Effect.isSignal]
  · intro b
    by_cases hrx : rx = 0 <;> by_cases htx : tx = 0 <;> by_cases ht : t = 0 <;>
      cases r <;> cases hre : c.roamingEnabled <;> cases b <;>
      simp [hrx, htx, ht]
  · intro v
    by_cases hrx : rx = 0 <;> by_cases htx : tx = 0 <;> by_cases ht : t = 0 <;>
      cases r <;> cases hre : c.roamingEnabled <;>
      simp [hrx, htx, ht] <;> omega
  · intro v
    by_cases hrx : rx = 0 <;> by_cases htx : tx = 0 <;> by_cases ht : t = 0 <;>
      cases r <;> cases hre : c.roamingEnabled <;>
      simp [hrx, htx, ht] <;> omega
  · intro v
    by_cases hrx : rx = 0 <;> by_cases htx : tx = 0 <;> by_cases ht : t = 0 <;>
      cases r <;> cases hre : c.roamingEnabled <;>
      simp [hrx, htx, ht] <;> omega

/-! ## Usage reports: missing keys -/

theorem value_of_not_contains (m : QVariantMap) (key : String)
    (h : m.contains key = false) : m.value key = QVariant.invalid := by
  have hl : m.lookup key = none := by
    rw [List.lookup_eq_none_iff]
    intro p hp
    unfold QVariantMap.contains at h
    have h1 := List.any_eq_false.mp h p hp
    simp only [beq_iff_eq] at h1
    simp only [bne_iff_ne, ne_eq]
    exact fun e => h1 e.symm
  simp [QVariantMap.value, hl]

theorem value_of_lookup (m : QVariantMap) (key : String) (q : QVariant)
    (h : m.lookup key = some q) : m.value key = q := by
  simp [QVariantMap.value, h]

/-- C13: a report without the keys `RX.Bytes`, `TX.Bytes` and `Time` (the empty mapping
included) is treated as all-zero: the six bucket fields are unchanged and none of
`bytesReceivedChanged`, `bytesTransmittedChanged`, `secondsOnlineChanged` is emitted. Key by
key: an absent key leaves its field unchanged in both buckets and emits no event for it; a
key present with the entry `q` sets the field of the report's bucket to the value of `q`
when that value is non-zero and leaves it unchanged otherwise; the fields of the other
bucket are never changed. -/
theorem serviceUsage_missing_keys (c : Counter) (sp : String) (m : QVariantMap) (r : Bool) :
    ((m.contains "RX.Bytes" = false ∧ m.contains "TX.Bytes" = false
        ∧ m.contains "Time" = false) →
      ((c.serviceUsage sp m r).1.bytesInHome = c.bytesInHome
        ∧ (c.serviceUsage sp m r).1.bytesOutHome = c.bytesOutHome
        ∧ (c.serviceUsage sp m r).1.secondsOnlineHome = c.secondsOnlineHome
        ∧ (c.serviceUsage sp m r).1.bytesInRoaming = c.bytesInRoaming
        ∧ (c.serviceUsage sp m r).1.bytesOutRoaming = c.bytesOutRoaming
        ∧ (c.serviceUsage sp m r).1.secondsOnlineRoaming = c.secondsOnlineRoaming)
      ∧ (c.serviceUsage sp m r).2
          = [Effect.counterChanged sp m r]
            ++ (if r ≠ c.roamingEnabled then [Effect.roamingChanged r] else []))
    ∧ ((c.serviceUsage sp [] r).1 = { c with roamingEnabled := r }
      ∧ (c.serviceUsage sp [] r).2
          = [Effect.counterChanged sp [] r]
            ++ (if r ≠ c.roamingEnabled then [Effect.roamingChanged r] else []))
    ∧ (m.contains "RX.Bytes" = false →
        (c.serviceUsage sp m r).1.bytesInHome = c.bytesInHome
        ∧ (c.serviceUsage sp m r).1.bytesInRoaming = c.bytesInRoaming
        ∧ ∀ v : Nat, Effect.bytesReceivedChanged v ∉ (c.serviceUsage sp m r).2)
    ∧ (m.contains "TX.Bytes" = false →
        (c.serviceUsage sp m r).1.bytesOutHome = c.bytesOutHome
        ∧ (c.serviceUsage sp m r).1.bytesOutRoaming = c.bytesOutRoaming
        ∧ ∀ v : Nat, Effect.bytesTransmittedChanged v ∉ (c.serviceUsage sp m r).2)
    ∧ (m.contains "Time" = false →
        (c.serviceUsage sp m r).1.secondsOnlineHome = c.secondsOnlineHome
        ∧ (c.serviceUsage sp m r).1.secondsOnlineRoaming = c.secondsOnlineRoaming
        ∧ ∀ v : Nat, Effect.secondsOnlineChanged v ∉ (c.serviceUsage sp m r).2)
    ∧ (∀ q : QVariant, m.lookup "RX.Bytes" = some q →
        (if r then (c.serviceUsage sp m r).1.bytesInRoaming
          else (c.serviceUsage sp m r).1.bytesInHome)
        = (if q.toULongLong ≠ 0 then q.toULongLong
            else if r then c.bytesInRoaming else c.bytesInHome))
    ∧ (∀ q : QVariant, m.lookup "TX.Bytes" = some q →
        (if r then (c.serviceUsage sp m r).1.bytesOutRoaming
          else (c.serviceUsage sp m r).1.bytesOutHome)
        = (if q.toULongLong ≠ 0 then q.toULongLong
            else if r then c.bytesOutRoaming else c.bytesOutHome))
    ∧ (∀ q : QVariant, m.lookup "Time" = some q →
        (if r then (c.serviceUsage sp m r).1.secondsOnlineRoaming
          else (c.serviceUsage sp m r).1.secondsOnlineHome)
        = (if q.toUInt ≠ 0 then q.toUInt
            else if r then c.secondsOnlineRoaming else c.secondsOnlineHome))
    ∧ ((if r then (c.serviceUsage sp m r).1.bytesInHome
          else (c.serviceUsage sp m r).1.bytesInRoaming)
        = (if r then c.bytesInHome else c.bytesInRoaming)
      ∧ (if r then (c.serviceUsage sp m r).1.bytesOutHome
          else (c.serviceUsage sp m r).1.bytesOutRoaming)
        = (if r then c.bytesOutHome else c.bytesOutRoaming)
      ∧ (if r then (c.serviceUsage sp m r).1.secondsOnlineHome
          else (c.serviceUsage sp m r).1.secondsOnlineRoaming)
        = (if r then c.secondsOnlineHome else c.secondsOnlineRoaming)) := by
  obtain ⟨f1, f2, f3, f4, f5, f6⟩ := serviceUsage_fields c sp m r
  have hev : (c.serviceUsage sp m r).2
      = [Effect.counterChanged sp m r]
        ++ (if r ≠ c.roamingEnabled then [Effect.roamingChanged r] else [])
        ++ (if (m.value "RX.Bytes").toULongLong ≠ 0
              then [Effect.bytesReceivedChanged (m.value "RX.Bytes").toULongLong] else [])
        ++ (if (m.value "TX.Bytes").toULongLong ≠ 0
              then [Effect.bytesTransmittedChanged (m.value "TX.Bytes").toULongLong] else [])
        ++ (if (m.value "Time").toUInt ≠ 0
              then [Effect.secondsOnlineChanged (m.value "Time").toUInt] else []) := rfl
  refine ⟨?_, ?_, ?_, ?_, ?_, ?_, ?_, ?_, ?_⟩
  · rintro ⟨hrx, htx, ht⟩
    have vrx := value_of_not_contains m _ hrx
    have vtx := value_of_not_contains m _ htx
    have vt := value_of_not_contains m _ ht
    rw [f1, f2, f3, f4, f5, f6, hev, vrx, vtx, vt]
    simp [QVariant.toULongLong, QVariant.toUInt]
  · clear f1 f2 f3 f4 f5 f6 hev
    obtain ⟨p, a1, a2, a3, a4, a5, a6, re, i, a, ir, sr⟩ := c
    cases r <;> cases re <;>
      simp [Counter.serviceUsage, QVariantMap.value, QVariant.toULongLong, QVariant.toUInt]
  · intro hrx
    have vrx := value_of_not_contains m _ hrx
    rw [f1, f4, hev, vrx]
    by_cases h1 : r = c.roamingEnabled <;>
      by_cases h2 : (m.value "TX.Bytes").toULongLong = 0 <;>
      by_cases h3 : (m.value "Time").toUInt = 0 <;>
      simp [QVariant.toULongLong, h1, h2, h3]
  · intro htx
    have vtx := value_of_not_contains m _ htx
    rw [f2, f5, hev, vtx]
    by_cases h1 : r = c.roamingEnabled <;>
      by_cases h2 : (m.value "RX.Bytes").toULongLong = 0 <;>
      by_cases h3 : (m.value "Time").toUInt = 0 <;>
      simp [QVariant.toULongLong, h1, h2, h3]
  · intro ht
    have vt := value_of_not_contains m _ ht
    rw [f3, f6, hev, vt]
    by_cases h1 : r = c.roamingEnabled <;>
      by_cases h2 : (m.value "RX.Bytes").toULongLong = 0 <;>
      by_cases h3 : (m.value "TX.Bytes").toULongLong = 0 <;>
      simp [QVariant.toUInt, h1, h2, h3]
  · intro q hq
    rw [f1, f4, value_of_lookup m _ q hq]
    cases r <;> simp
  · intro q hq
    rw [f2, f5, value_of_lookup m _ q hq]
    cases r <;> simp
  · intro q hq
    rw [f3, f6, value_of_lookup m _ q hq]
    cases r <;> simp
  · rw [f1, f2, f3, f4, f5, f6]
    cases r <;> simp

/-- Witness of C13 on a roaming report holding only `TX.Bytes` 50: the roaming `bytesIn`
stays 0 and the roaming `bytesOut` becomes 50. -/
theorem serviceUsage_missing_keys_witness :
    ((Counter.initial 7).serviceUsage "/s" [("TX.Bytes", QVariant.uLongLong 50)]
        true).1.bytesInRoaming = 0
    ∧ ((Counter.initial 7).serviceUsage "/s" [("TX.Bytes", QVariant.uLongLong 50)]
        true).1.bytesOutRoaming = 50 := by
  obtain ⟨-, -, hrx, -, -, -, htx, -, -⟩ :=
    serviceUsage_missing_keys (Counter.initial 7) "/s"
      [("TX.Bytes", QVariant.uLongLong 50)] true
  refine ⟨(hrx (by decide)).2.1, ?_⟩
  have h := htx (QVariant.uLongLong 50) (by decide)
  simpa [QVariant.toULongLong] using h

/-! ## The adaptor -/

/-- C14: `Usage(service, home, roaming)` runs `serviceUsage` once for each non-empty payload,
home first: with both payloads empty nothing changes and nothing is emitted; with one
non-empty payload the result is that of `serviceUsage` on it (flag false for home, true for
roaming); with both, the roaming report is processed on the state left by the home report
and the events are those of the first followed by those of the second. Whenever the roaming
payload is non-empty `roaming()` is true afterwards. -/
theorem Usage_dispatch (c : Counter) (sp : String) (h : String × QVariant)
    (hs : QVariantMap) (r : String × QVariant) (rs : QVariantMap) (home : QVariantMap) :
    CounterAdaptor.Usage c sp [] [] = (c, [])
    ∧ CounterAdaptor.Usage c sp (h :: hs) [] = c.serviceUsage sp (h :: hs) false
    ∧ CounterAdaptor.Usage c sp [] (r :: rs) = c.serviceUsage sp (r :: rs) true
    ∧ CounterAdaptor.Usage c sp (h :: hs) (r :: rs)
        = (((c.serviceUsage sp (h :: hs) false).1.serviceUsage sp (r :: rs) true).1,
           (c.serviceUsage sp (h :: hs) false).2
            ++ ((c.serviceUsage sp (h :: hs) false).1.serviceUsage sp (r :: rs) true).2)
    ∧ (CounterAdaptor.Usage c sp home (r :: rs)).1.roaming = true := by
  refine ⟨?_, ?_, ?_, ?_, ?_⟩
  · simp [CounterAdaptor.Usage]
  · simp [CounterAdaptor.Usage]
  · simp [CounterAdaptor.Usage]
  · simp [CounterAdaptor.Usage]
  · cases home with
    | nil =>
      simp only [CounterAdaptor.Usage, List.isEmpty_nil, List.isEmpty_cons, Bool.not_true,
        Bool.not_false, Bool.false_eq_true, if_false, if_true]
      exact serviceUsage_roamingEnabled _ _ _ _
    | cons e es =>
      simp only [CounterAdaptor.Usage, List.isEmpty_cons, Bool.not_false, if_true]
      exact serviceUsage_roamingEnabled _ _ _ _

/-! ## The signal `runningChanged` -/

/-- C15, as amended: a call of `setRunning` or of `updateMgrAvailability` emits at most one
`runningChanged`, carrying the value of `isRunning` after the call. It is emitted exactly
when the call reaches the manager (for `setRunning`: the manager is available; for
`updateMgrAvailability`: the argument is true, `registerObject` succeeds and the manager is
available), whether or not `isRunning` changes; so whenever `isRunning` after the call
differs from its value before, exactly one is emitted. -/
theorem runningChanged_events (c : Counter) (isAvailable on_ ok available : Bool) :
    ((c.setRunning isAvailable on_).2.filter Effect.isRunningChanged
        = (if isAvailable
            then [Effect.runningChanged (c.setRunning isAvailable on_).1.isRunning] else [])
      ∧ ((c.setRunning isAvailable on_).1.isRunning ≠ c.isRunning →
          (c.setRunning isAvailable on_).2.filter Effect.isRunningChanged
            = [Effect.runningChanged (c.setRunning isAvailable on_).1.isRunning]))
    ∧ ((c.updateMgrAvailability ok isAvailable available).2.filter Effect.isRunningChanged
        = (if available && ok && isAvailable
            then [Effect.runningChanged
                    (c.updateMgrAvailability ok isAvailable available).1.isRunning]
            else [])
      ∧ ((c.updateMgrAvailability ok isAvailable available).1.isRunning ≠ c.isRunning →
          (c.updateMgrAvailability ok isAvailable available).2.filter Effect.isRunningChanged
            = [Effect.runningChanged
                (c.updateMgrAvailability ok isAvailable available).1.isRunning])) := by
  refine ⟨⟨?_, ?_⟩, ?_, ?_⟩
  · cases isAvailable <;> cases on_ <;>
      simp [Counter.setRunning, Effect.isRunningChanged]
  · cases isAvailable <;> cases on_ <;>
      simp [Counter.setRunning, Effect.isRunningChanged]
  · cases available <;> cases ok <;> cases isAvailable <;>
      cases hs : c.shouldBeRunning <;>
      simp [Counter.updateMgrAvailability, Counter.setRunning, Effect.isRunningChanged, hs]
  · cases available <;> cases ok <;> cases isAvailable <;>
      cases hs : c.shouldBeRunning <;>
      simp [Counter.updateMgrAvailability, Counter.setRunning, Effect.isRunningChanged, hs]

/-- Witness of the amended C15: a stopped counter started with the manager available. -/
theorem runningChanged_events_witness :
    ((Counter.initial 7).setRunning true true).2.filter Effect.isRunningChanged
      = [Effect.runningChanged true] :=
  (runningChanged_events (Counter.initial 7) true true true true).1.2 (by decide)

/-- C15 as stated fails: stopping a counter that is not running, with the manager
available, emits `runningChanged(false)` although `isRunning` keeps its value. -/
theorem runningChanged_without_change :
    ¬ ((((Counter.initial 7).setRunning true false).2.any Effect.isRunningChanged = true) ↔
        ((Counter.initial 7).setRunning true false).1.isRunning
          ≠ (Counter.initial 7).isRunning) := by
  decide

/-! ## Registration parameters along a trace -/

theorem latestOr_cons (init : Nat) (f : Op → Option Nat) (op : Op) (ops : List Op) :
    latestOr init f (op :: ops) = latestOr ((f op).getD init) f ops := by
  unfold latestOr
  rw [List.reverse_cons, List.findSome?_append]
  cases h : ops.reverse.findSome? f with
  | some w => simp
  | none => cases hf : f op <;> simp [hf]

/-- What one event does to the registration parameters and to the path. -/
theorem step_parameters (w : World) (op : Op) :
    (w.step op).counter.currentAccuracy = (op.accuracySet).getD w.counter.currentAccuracy
    ∧ (w.step op).counter.currentInterval = (op.intervalSet).getD w.counter.currentInterval
    ∧ (w.step op).counter.counterPath = w.counter.counterPath := by
  cases op with
  | setRunning b =>
    cases b <;> cases hm : w.managerAvailable <;>
      simp [World.step, World.dispatch, Counter.setRunning, Op.accuracySet, Op.intervalSet, hm]
  | setAccuracy v =>
    cases hm : w.managerAvailable <;>
      simp [World.step, World.dispatch, Counter.setAccuracy, Counter.reRegister,
        Op.accuracySet, Op.intervalSet, hm]
  | setInterval v =>
    cases hm : w.managerAvailable <;>
      simp [World.step, World.dispatch, Counter.setInterval, Counter.reRegister,
        Op.accuracySet, Op.intervalSet, hm]
  | serviceUsage sp m r =>
    obtain ⟨-, -, h3, h4, h5⟩ := serviceUsage_registration w.counter sp m r
    simp [World.step, World.dispatch, h3, h4, h5, Op.accuracySet, Op.intervalSet]
  | usage sp h r =>
    obtain ⟨-, -, h3, h4, h5⟩ := Usage_registration w.counter sp h r
    simp [World.step, World.dispatch, h3, h4, h5, Op.accuracySet, Op.intervalSet]
  | release =>
    simp [World.step, World.dispatch, CounterAdaptor.Release, Counter.release,
      Op.accuracySet, Op.intervalSet]
  | availabilityChanged a ok =>
    cases a <;> cases ok <;> cases hs : w.counter.shouldBeRunning <;>
      simp [World.step, World.dispatch, Counter.updateMgrAvailability, Counter.setRunning,
        Op.accuracySet, Op.intervalSet, hs]

/-- The parameters and the path after a sequence of events. -/
theorem run_parameters (w : World) (ops : List Op) :
    (w.run ops).counter.currentAccuracy = latestOr w.counter.currentAccuracy Op.accuracySet ops
    ∧ (w.run ops).counter.currentInterval
        = latestOr w.counter.currentInterval Op.intervalSet ops
    ∧ (w.run ops).counter.counterPath = w.counter.counterPath := by
  induction ops generalizing w with
  | nil => simp [World.run, latestOr]
  | cons op ops ih =>
    obtain ⟨h1, h2, h3⟩ := step_parameters w op
    rw [run_cons, latestOr_cons, latestOr_cons, ← h1, ← h2, ← h3]
    exact ih (w.step op)

theorem fresh_parameters (n : Nat) (sr ok av : Bool) :
    (World.fresh n sr ok av).counter.currentAccuracy = 1024
    ∧ (World.fresh n sr ok av).counter.currentInterval = 1
    ∧ (World.fresh n sr ok av).counter.counterPath = "/ConnectivityCounter" ++ toString n
    ∧ ∀ e ∈ (World.fresh n sr ok av).log, e.isRegister = false := by
  cases sr <;> cases ok <;> cases av <;>
    simp [World.fresh, Counter.construct, Counter.updateMgrAvailability, Counter.setRunning,
      Counter.initial, Effect.isRegister]

theorem run_append_singleton (w : World) (ops : List Op) (op : Op) :
    w.run (ops ++ [op]) = (w.run ops).step op := by
  simp [World.run, List.foldl_append]

theorem not_register_of_managerCalls_nil (es : List Effect) (h : managerCalls es = [])
    (e : Effect) (he : e ∈ es) : e.isRegister = false := by
  have h1 : e.isManagerCall = false := by
    have := List.filter_eq_nil_iff.mp h e he
    simpa using this
  cases e <;> simp_all [Effect.isManagerCall, Effect.isRegister]

/-- A `registerCounter` made while handling an event carries the path of the counter and
the parameters the counter holds once the event has been handled. -/
theorem step_register (w : World) (op : Op) (e : Effect) (he : e ∈ (w.dispatch op).2.2)
    (hreg : e.isRegister = true) :
    e = Effect.registerCounter w.counter.counterPath (w.step op).counter.currentAccuracy
          (w.step op).counter.currentInterval := by
  cases op with
  | setRunning b =>
    cases b <;> cases hm : w.managerAvailable <;>
      simp [World.step, World.dispatch, Counter.setRunning, hm] at he ⊢ <;>
      rcases he with rfl | rfl <;> simp_all [Effect.isRegister]
  | setAccuracy v =>
    cases hm : w.managerAvailable <;>
      simp [World.step, World.dispatch, Counter.setAccuracy, Counter.reRegister, hm] at he ⊢ <;>
      rcases he with rfl | rfl | rfl <;> simp_all [Effect.isRegister]
  | setInterval v =>
    cases hm : w.managerAvailable <;>
      simp [World.step, World.dispatch, Counter.setInterval, Counter.reRegister, hm] at he ⊢ <;>
      rcases he with rfl | rfl | rfl <;> simp_all [Effect.isRegister]
  | serviceUsage sp m r =>
    have := not_register_of_managerCalls_nil _ (serviceUsage_managerCalls w.counter sp m r) e he
    rw [this] at hreg
    exact absurd hreg (by decide)
  | usage sp h r =>
    have := not_register_of_managerCalls_nil _ (Usage_managerCalls w.counter sp h r) e he
    rw [this] at hreg
    exact absurd hreg (by decide)
  | release =>
    simp [World.dispatch, CounterAdaptor.Release, Counter.release] at he
  | availabilityChanged a ok =>
    cases a <;> cases ok <;> cases hs : w.counter.shouldBeRunning <;>
      simp [World.step, World.dispatch, Counter.updateMgrAvailability, Counter.setRunning,
        hs] at he ⊢ <;>
      rcases he with rfl | rfl | rfl | rfl <;> simp_all [Effect.isRegister]

theorem run_append (w : World) (ops ps : List Op) :
    w.run (ops ++ ps) = (w.run ops).run ps := by
  simp [World.run, List.foldl_append]

/-- Changes of parameters made while the manager is unavailable make no manager call. -/
theorem run_parameter_changes_unavailable (w : World) (ps : List Op)
    (hm : w.managerAvailable = false) (hps : ∀ p ∈ ps, p.isParameterChange = true) :
    (w.run ps).managerAvailable = false
    ∧ managerCalls (w.run ps).log = managerCalls w.log := by
  refine run_invariant
    (fun x => x.managerAvailable = false ∧ managerCalls x.log = managerCalls w.log)
    (fun p => p.isParameterChange = true) ?_ w ps ⟨hm, rfl⟩ hps
  intro x op hx hop
  obtain ⟨hx1, hx2⟩ := hx
  cases op with
  | setAccuracy v =>
    simp [World.step, World.dispatch, Counter.setAccuracy, Counter.reRegister, hx1,
      managerCalls_append, hx2]
    simp [managerCalls, Effect.isManagerCall]
  | setInterval v =>
    simp [World.step, World.dispatch, Counter.setInterval, Counter.reRegister, hx1,
      managerCalls_append, hx2]
    simp [managerCalls, Effect.isManagerCall]
  | setRunning b => simp [Op.isParameterChange] at hop
  | serviceUsage sp m r => simp [Op.isParameterChange] at hop
  | usage sp h r => simp [Op.isParameterChange] at hop
  | release => simp [Op.isParameterChange] at hop
  | availabilityChanged a ok => simp [Op.isParameterChange] at hop

/-- C16: parameter changes are last-write-wins. On any trace from a freshly constructed
counter: the constructor makes no `registerCounter`; every `registerCounter` made while
handling an event carries the path of the counter and the accuracy and interval most
recently set up to and including that event (or the defaults 1024 and 1); any number of
`setAccuracy` / `setInterval` made while the manager is unavailable make no manager call;
and when `shouldBeRunning` is true, the manager turning available (with `registerObject`
succeeding) makes exactly one manager call, a `registerCounter` with the latest values. -/
theorem register_carries_latest (n : Nat) (sr ok av : Bool) (ops : List Op) :
    (∀ e ∈ (World.fresh n sr ok av).log, e.isRegister = false)
    ∧ (∀ (op : Op) (e : Effect),
        e ∈ (((World.fresh n sr ok av).run ops).dispatch op).2.2 → e.isRegister = true →
        e = Effect.registerCounter ("/ConnectivityCounter" ++ toString n)
              (latestAccuracy (ops ++ [op])) (latestInterval (ops ++ [op])))
    ∧ (∀ ps : List Op, ((World.fresh n sr ok av).run ops).managerAvailable = false →
        (∀ p ∈ ps, p.isParameterChange = true) →
        managerCalls ((World.fresh n sr ok av).run (ops ++ ps)).log
          = managerCalls ((World.fresh n sr ok av).run ops).log)
    ∧ (((World.fresh n sr ok av).run ops).counter.shouldBeRunning = true →
        managerCalls
            (((World.fresh n sr ok av).run ops).dispatch (Op.availabilityChanged true true)).2.2
          = [Effect.registerCounter ("/ConnectivityCounter" ++ toString n)
              (latestAccuracy ops) (latestInterval ops)]) := by
  obtain ⟨fa, fi, fp, fr⟩ := fresh_parameters n sr ok av
  refine ⟨fr, ?_, ?_, ?_⟩
  · intro op e he hreg
    have h := step_register _ op e he hreg
    obtain ⟨r1, r2, r3⟩ := run_parameters (World.fresh n sr ok av) ops
    obtain ⟨q1, q2, -⟩ := run_parameters (World.fresh n sr ok av) (ops ++ [op])
    rw [run_append_singleton] at q1 q2
    rw [h, r3, fp, q1, q2, fa, fi]
    rfl
  · intro ps hm hps
    rw [run_append]
    exact (run_parameter_changes_unavailable _ ps hm hps).2
  · intro hs
    obtain ⟨r1, r2, r3⟩ := run_parameters (World.fresh n sr ok av) ops
    simp only [World.dispatch, Counter.updateMgrAvailability, Counter.setRunning, hs, r1, r2,
      r3, fa, fi, fp]
    simp [managerCalls, Effect.isManagerCall, latestAccuracy, latestInterval]

/-- Witness of C16: start requested and parameters changed three times while the manager
is unavailable; the manager turning available then registers path 7 with accuracy 20 and
interval 3. -/
theorem register_carries_latest_witness :
    managerCalls
        (((World.fresh 7 false false false).run
            [Op.setRunning true, Op.setAccuracy 10, Op.setInterval 3, Op.setAccuracy 20]).dispatch
          (Op.availabilityChanged true true)).2.2
      = [Effect.registerCounter "/ConnectivityCounter7" 20 3] :=
  ((register_carries_latest 7 false false false
      [Op.setRunning true, Op.setAccuracy 10, Op.setInterval 3, Op.setAccuracy 20]).2.2.2
    (by decide)).trans (by decide)

/-! ## Availability changes -/

/-- C17, as amended: when `registerObject` fails while the manager turns available, for
every prior state the counter makes no manager call (no register, no unregister), emits no
signal (no `runningChanged`), tries the registration once and logs, and keeps its state:
`running()` returns what it returned before, so false for a counter that was not running. -/
theorem updateMgrAvailability_registerObject_fails (c : Counter) (isAvailable : Bool) :
    c.updateMgrAvailability false isAvailable true
      = (c, [Effect.newCounterAdaptor, Effect.registerObject c.counterPath,
             Effect.qDebug c.counterPath])
    ∧ managerCalls (c.updateMgrAvailability false isAvailable true).2 = []
    ∧ signals (c.updateMgrAvailability false isAvailable true).2 = []
    ∧ (c.updateMgrAvailability false isAvailable true).1.running = c.running
    ∧ (c.isRunning = false →
        (c.updateMgrAvailability false isAvailable true).1.running = false) := by
  have h : c.updateMgrAvailability false isAvailable true
      = (c, [Effect.newCounterAdaptor, Effect.registerObject c.counterPath,
             Effect.qDebug c.counterPath]) := by
    simp [Counter.updateMgrAvailability]
  refine ⟨h, ?_, ?_, ?_, ?_⟩
  · rw [h]
    simp [managerCalls, Effect.isManagerCall]
  · rw [h]
    simp [signals, Effect.isSignal]
  · rw [h]
  · intro hr
    rw [h]
    exact hr

/-- Witness of the amended C17 on a freshly constructed counter. -/
theorem updateMgrAvailability_registerObject_fails_witness :
    ((Counter.initial 7).updateMgrAvailability false true true).1.running = false :=
  (updateMgrAvailability_registerObject_fails (Counter.initial 7) true).2.2.2.2 rfl

/-- C17 as stated fails: a counter started with the manager available stays running when a
further `availabilityChanged(true)` finds `registerObject` failing. -/
theorem running_after_registerObject_fails :
    ¬ (((World.fresh 7 true true true).run
          [Op.setRunning true, Op.availabilityChanged true false]).counter.running = false) := by
  decide

/-- C18: the manager turning unavailable is a no-op for the counter: for every state,
`updateMgrAvailability(false)` leaves every member unchanged (`isRunning` and
`shouldBeRunning` included) and produces no effect, neither a manager call nor a signal. -/
theorem updateMgrAvailability_false (c : Counter) (ok isAvailable : Bool) :
    c.updateMgrAvailability ok isAvailable false = (c, [])
    ∧ (c.updateMgrAvailability ok isAvailable false).1.isRunning = c.isRunning
    ∧ (c.updateMgrAvailability ok isAvailable false).1.shouldBeRunning = c.shouldBeRunning
    ∧ managerCalls (c.updateMgrAvailability ok isAvailable false).2 = []
    ∧ signals (c.updateMgrAvailability ok isAvailable false).2 = [] := by
  have h : c.updateMgrAvailability ok isAvailable false = (c, []) := by
    simp [Counter.updateMgrAvailability]
  refine ⟨h, ?_, ?_, ?_, ?_⟩ <;> rw [h] <;> rfl

/-! ## Buckets never fall back to zero -/

theorem keepsNonZero_refl (c : Counter) : keepsNonZero c c :=
  ⟨id, id, id, id, id, id⟩

theorem keepsNonZero_trans (a b c : Counter) (h1 : keepsNonZero a b)
    (h2 : keepsNonZero b c) : keepsNonZero a c :=
  ⟨fun h => h2.1 (h1.1 h), fun h => h2.2.1 (h1.2.1 h), fun h => h2.2.2.1 (h1.2.2.1 h),
   fun h => h2.2.2.2.1 (h1.2.2.2.1 h), fun h => h2.2.2.2.2.1 (h1.2.2.2.2.1 h),
   fun h => h2.2.2.2.2.2 (h1.2.2.2.2.2 h)⟩

theorem keepsNonZero_of_eq (a b : Counter) (h1 : b.bytesInHome = a.bytesInHome)
    (h2 : b.bytesOutHome = a.bytesOutHome) (h3 : b.secondsOnlineHome = a.secondsOnlineHome)
    (h4 : b.bytesInRoaming = a.bytesInRoaming) (h5 : b.bytesOutRoaming = a.bytesOutRoaming)
    (h6 : b.secondsOnlineRoaming = a.secondsOnlineRoaming) : keepsNonZero a b := by
  unfold keepsNonZero
  rw [h1, h2, h3, h4, h5, h6]
  exact ⟨id, id, id, id, id, id⟩

theorem serviceUsage_keepsNonZero (c : Counter) (sp : String) (m : QVariantMap) (r : Bool) :
    keepsNonZero c (c.serviceUsage sp m r).1 := by
  obtain ⟨h1, h2, h3, h4, h5, h6⟩ := serviceUsage_fields c sp m r
  unfold keepsNonZero
  rw [h1, h2, h3, h4, h5, h6]
  refine ⟨?_, ?_, ?_, ?_, ?_, ?_⟩ <;> intro h <;> split_ifs with hc <;>
    first
    | exact h
    | exact hc.2

theorem Usage_keepsNonZero (c : Counter) (sp : String) (h r : QVariantMap) :
    keepsNonZero c (CounterAdaptor.Usage c sp h r).1 := by
  unfold CounterAdaptor.Usage
  cases hh : h.isEmpty <;> cases hr : r.isEmpty <;>
    simp only [Bool.not_false, Bool.not_true, if_true, Bool.false_eq_true, if_false]
  · exact keepsNonZero_trans _ _ _ (serviceUsage_keepsNonZero c sp h false)
      (serviceUsage_keepsNonZero _ sp r true)
  · exact serviceUsage_keepsNonZero c sp h false
  · exact serviceUsage_keepsNonZero c sp r true
  · exact keepsNonZero_refl c

theorem step_keepsNonZero (w : World) (op : Op) :
    keepsNonZero w.counter (w.step op).counter := by
  cases op with
  | setRunning b =>
    apply keepsNonZero_of_eq <;> cases b <;> cases hm : w.managerAvailable <;>
      simp [World.step, World.dispatch, Counter.setRunning, hm]
  | setAccuracy v =>
    apply keepsNonZero_of_eq <;> cases hm : w.managerAvailable <;>
      simp [World.step, World.dispatch, Counter.setAccuracy, Counter.reRegister, hm]
  | setInterval v =>
    apply keepsNonZero_of_eq <;> cases hm : w.managerAvailable <;>
      simp [World.step, World.dispatch, Counter.setInterval, Counter.reRegister, hm]
  | serviceUsage sp m r => exact serviceUsage_keepsNonZero w.counter sp m r
  | usage sp h r => exact Usage_keepsNonZero w.counter sp h r
  | release => exact keepsNonZero_refl w.counter
  | availabilityChanged a ok =>
    apply keepsNonZero_of_eq <;> cases a <;> cases ok <;>
      cases hs : w.counter.shouldBeRunning <;>
      simp [World.step, World.dispatch, Counter.updateMgrAvailability, Counter.setRunning, hs]

/-- C19: bucket values never fall back to zero: for every state (reachable or not) and
every public operation (usage report, `Usage`, `setAccuracy`, `setInterval`, `setRunning`,
availability change, `release`), each of the six bucket fields that is non-zero before the
operation is non-zero after it; hence the same over any sequence of operations. -/
theorem buckets_never_regress (w : World) (op : Op) (ops : List Op) :
    keepsNonZero w.counter (w.step op).counter
    ∧ keepsNonZero w.counter (w.run ops).counter := by
  refine ⟨step_keepsNonZero w op, ?_⟩
  induction ops generalizing w with
  | nil => exact keepsNonZero_refl w.counter
  | cons o os ih =>
    rw [run_cons]
    exact keepsNonZero_trans _ _ _ (step_keepsNonZero w o) (ih (w.step o))

/-- Witness of C19: after the home report of the scenario, a home report with `RX.Bytes` 0
leaves the home `bytesIn` non-zero. -/
theorem buckets_never_regress_witness :
    (((World.fresh 7 true true true).step (Op.serviceUsage "/s" scenarioHome false)).step
        (Op.serviceUsage "/s" [("RX.Bytes", QVariant.uLongLong 0)] false)).counter.bytesInHome
      ≠ 0 :=
  (buckets_never_regress
      ((World.fresh 7 true true true).step (Op.serviceUsage "/s" scenarioHome false))
      (Op.serviceUsage "/s" [("RX.Bytes", QVariant.uLongLong 0)] false) []).1.1
    (by decide)

/-! ## Usage reports and the registration -/

/-- C20: usage reports do not touch the registration side: `serviceUsage` and
`CounterAdaptor::Usage` leave accuracy, interval, `isRunning`, `shouldBeRunning` and the
path unchanged and make no manager call (they never ask the manager whether it is
available); `release()`, also through the adaptor, changes nothing and produces no effect. -/
theorem usage_keeps_registration (c : Counter) (sp : String) (m : QVariantMap) (r : Bool)
    (home roaming : QVariantMap) :
    ((c.serviceUsage sp m r).1.accuracy = c.accuracy
      ∧ (c.serviceUsage sp m r).1.interval = c.interval
      ∧ (c.serviceUsage sp m r).1.isRunning = c.isRunning
      ∧ (c.serviceUsage sp m r).1.shouldBeRunning = c.shouldBeRunning
      ∧ (c.serviceUsage sp m r).1.counterPath = c.counterPath
      ∧ managerCalls (c.serviceUsage sp m r).2 = [])
    ∧ ((CounterAdaptor.Usage c sp home roaming).1.accuracy = c.accuracy
      ∧ (CounterAdaptor.Usage c sp home roaming).1.interval = c.interval
      ∧ (CounterAdaptor.Usage c sp home roaming).1.isRunning = c.isRunning
      ∧ (CounterAdaptor.Usage c sp home roaming).1.shouldBeRunning = c.shouldBeRunning
      ∧ (CounterAdaptor.Usage c sp home roaming).1.counterPath = c.counterPath
      ∧ managerCalls (CounterAdaptor.Usage c sp home roaming).2 = [])
    ∧ (c.release = (c, []) ∧ CounterAdaptor.Release c = (c, [])) := by
  obtain ⟨a1, a2, a3, a4, a5⟩ := serviceUsage_registration c sp m r
  obtain ⟨b1, b2, b3, b4, b5⟩ := Usage_registration c sp home roaming
  exact ⟨⟨a3, a4, a1, a2, a5, serviceUsage_managerCalls c sp m r⟩,
    ⟨b3, b4, b1, b2, b5, Usage_managerCalls c sp home roaming⟩, rfl, rfl⟩

end ConnmanQt
